import Mathlib

/-!
Shallow embedding of the Dummy-Backend ingestion core (src/app/main.py,
src/app/models.py): business-day resolution, the ledger append service,
the ticket upsert orchestrator and the labor-punch ingestion loop, together
with theorems settling the frozen claims about them.

Conventions of the embedding:
* SQL tables are Lean lists of row structures; `query(...).first()` is
  `List.find?`; `db.add` appends a row; autoincrement primary keys are
  `table.length + 1` (rows are never deleted in this core).
* Python `datetime` instants are `Int` seconds; calendar dates are `Int`
  day numbers (day 0 = 1970-01-01); local clock times are `Int` seconds
  after local midnight.
* Aware datetimes built by `datetime.combine(..., tzinfo=tz)` are pairs of
  a naive wall-clock value and the tzinfo object; CPython performs naive
  (wall-clock) arithmetic when adding a timedelta and when subtracting two
  datetimes that carry the identical tzinfo object, which is the only
  subtraction the embedded code performs.
* Python truthiness tests (`if not source_event_id`, `if not item_id`, ...)
  are modelled by explicit truthiness functions on `Option`.
* The session commits once per request; the unique index of
  `ingestion_event_map` is checked at commit over the rows added by the
  request, and a violation aborts the request (IntegrityError) with no row
  persisted.
-/

namespace DummyBackend

/-- An IANA timezone as used through `zoneinfo.ZoneInfo`: all the embedded
code needs from it is the map sending a UTC instant to the local wall-clock
value produced by `astimezone` (this map already accounts for any DST rule
of the zone). -/
structure Tz where
  fromUtc : Int → Int

/-- A timezone-aware Python `datetime`: the naive wall-clock reading
(seconds since the local epoch origin) together with its tzinfo. -/
structure PyDateTime where
  naive : Int
  tz : Tz

/-- `datetime.combine(target_date, cutover, tzinfo=tz)`. -/
def pyCombine (d : Int) (t : Int) (tz : Tz) : PyDateTime :=
  ⟨d * 86400 + t, tz⟩

/-- `dt + timedelta(seconds=s)`: CPython adds a timedelta to the naive
fields and keeps the tzinfo, with no offset adjustment even for aware
datetimes. -/
def pyAddSeconds (dt : PyDateTime) (s : Int) : PyDateTime :=
  ⟨dt.naive + s, dt.tz⟩

/-- `a - b` for two aware datetimes carrying the *identical* tzinfo object:
CPython's `datetime.__sub__` returns the naive difference in that case
(`if self._tzinfo is other._tzinfo: return base`), with no offset
adjustment.  Both subtractions performed by the embedded code
(`ends_at - starts_at` on the bounds built by `_business_day_bounds`) are
of this shape. -/
def pySubSameTzinfo (a b : PyDateTime) : Int :=
  a.naive - b.naive

/-- `local_dt.date()` of a naive wall-clock value, as a day number. -/
def pyDateOf (n : Int) : Int :=
  n.fdiv 86400

/-- `local_dt.time()` of a naive wall-clock value, as seconds after local
midnight. -/
def pyTimeOf (n : Int) : Int :=
  n.emod 86400

/-- Python truthiness of an `Optional[str]`: `None` and `""` are falsy. -/
def optStrTruthy : Option String → Bool
  | none => false
  | some s => s ≠ ""

/-- Python truthiness of an `Optional[int]` id: `None` and `0` are falsy. -/
def optNatTruthy : Option Nat → Bool
  | none => false
  | some n => n ≠ 0

/-! ## Table rows (src/app/models.py)

Only the columns the embedded operations read or write are carried;
administrative columns (names, flags, audit timestamps) that no embedded
code path consults are omitted. -/

/-- `Location` (models.py): timezone carrier for business-day resolution. -/
structure LocationRow where
  id : Nat
  tenant_id : Nat
  timezone : Tz

/-- `LocationHours` (models.py): only the blanket cutover is consulted. -/
structure LocationHoursRow where
  tenant_id : Nat
  location_id : Nat
  business_day_cutover_local : Int

/-- `BusinessDay` (models.py). -/
structure BusinessDayRow where
  id : Nat
  tenant_id : Nat
  location_id : Nat
  business_date : Int
  starts_at : PyDateTime
  ends_at : PyDateTime

/-- `LedgerEvent` (models.py).  The verbatim JSON payload is carried as the
input event value (see `LedgerEventInput`). -/
structure LedgerEventRow where
  id : Nat
  tenant_id : Nat
  location_id : Option Nat
  business_day_id : Option Nat
  source_system_id : Nat
  domain : String
  feed_type : String
  source_event_id : String
  occurred_at : Int
  payload_source_event_id : Option String
  payload_fields : List (String × Option Int)
  ingested_at : Int

/-- `IngestionEventMap` (models.py): unique index on
(tenant_id, source_system_id, source_event_id, entity_type). -/
structure IngestionEventMapRow where
  tenant_id : Nat
  source_system_id : Nat
  source_event_id : String
  entity_type : String
  entity_id : Nat
  created_at : Int

/-- `ChannelMapping` (models.py). -/
structure ChannelMappingRow where
  id : Nat
  tenant_id : Nat
  provider : Option String
  source_channel_code : String

/-- `ItemExternalKey` (models.py). -/
structure ItemExternalKeyRow where
  tenant_id : Nat
  item_id : Nat
  source_system_id : Nat
  external_item_key : String

/-- `Ticket` (models.py).  Monetary amounts are exact decimals, embedded as
scaled integers. -/
structure TicketRow where
  id : Nat
  tenant_id : Nat
  location_id : Nat
  business_day_id : Option Nat
  source_system_id : Nat
  external_ticket_id : Option String
  opened_at : Int
  closed_at : Option Int
  status : String
  covers : Option Nat
  channel_id : Option Nat
  gross_amount : Int
  discount_amount : Int
  tax_amount : Int
  net_amount : Int

/-- `TicketLineItem` (models.py). -/
structure TicketLineItemRow where
  id : Nat
  tenant_id : Nat
  ticket_id : Nat
  item_id : Option Nat
  item_name_raw : Option String
  qty : Int
  uom : Option String
  unit_price : Option Int
  gross_line_amount : Int
  discount_line_amount : Int
  tax_line_amount : Int
  net_line_amount : Int
  channel_id : Option Nat

/-- `TicketPayment` (models.py); `metadata_json = {"reference": r}` is
carried as the optional reference itself. -/
structure TicketPaymentRow where
  id : Nat
  tenant_id : Nat
  ticket_id : Nat
  paid_at : Int
  tender_type : String
  amount : Int
  metadata_reference : Option String

/-- `TicketDiscount` (models.py). -/
structure TicketDiscountRow where
  id : Nat
  tenant_id : Nat
  ticket_id : Nat
  amount : Int
  reason : Option String

/-- `TicketVoid` (models.py). -/
structure TicketVoidRow where
  id : Nat
  tenant_id : Nat
  ticket_id : Nat
  amount : Int
  reason : Option String
  voided_at : Int

/-- `TicketRefund` (models.py). -/
structure TicketRefundRow where
  id : Nat
  tenant_id : Nat
  ticket_id : Nat
  amount : Int
  reason : Option String
  refunded_at : Int

/-- `Employee` (models.py). -/
structure EmployeeRow where
  id : Nat
  tenant_id : Nat
  location_id : Option Nat
  external_key : Option String

/-- `LaborPunch` (models.py). -/
structure LaborPunchRow where
  id : Nat
  tenant_id : Nat
  location_id : Nat
  employee_id : Nat
  clock_in : Int
  clock_out : Option Int
  role : Option String
  source_system_id : Nat

/-- The database: one list per table touched by the embedded operations. -/
structure DB where
  locations : List LocationRow
  location_hours : List LocationHoursRow
  business_days : List BusinessDayRow
  ledger_events : List LedgerEventRow
  event_map : List IngestionEventMapRow
  channel_mappings : List ChannelMappingRow
  item_external_keys : List ItemExternalKeyRow
  tickets : List TicketRow
  ticket_line_items : List TicketLineItemRow
  ticket_payments : List TicketPaymentRow
  ticket_discounts : List TicketDiscountRow
  ticket_voids : List TicketVoidRow
  ticket_refunds : List TicketRefundRow
  employees : List EmployeeRow
  labor_punches : List LaborPunchRow

/-- Request outcomes other than a successful JSON response.
`argumentError` models SQLAlchemy rejecting a non-ORM class handed to
`db.query(...)` (the named module global is bound to a pydantic request
model, not the mapped class, when the handler runs). -/
inductive ApiError where
  | notFound (detail : String)
  | integrityError
  | attributeError (name : String)
  | argumentError (name : String)

/-! ## Business Day Resolver (main.py lines 565-664, 212-215) -/

/-- `_business_day_bounds` (main.py): `starts_at = datetime.combine(
target_date, cutover, tzinfo=tz)`; `ends_at = starts_at + timedelta(days=1)
- timedelta(seconds=1)`. -/
def _business_day_bounds (target_date : Int) (tz : Tz) (cutover : Int) :
    PyDateTime × PyDateTime :=
  let starts_at := pyCombine target_date cutover tz
  let ends_at := pyAddSeconds starts_at (86400 - 1)
  (starts_at, ends_at)

/-- The cutover determination inlined identically in `resolve_business_day`
and `ensure_business_day` (main.py): default `time(5, 0)`, overridden by the
first `LocationHours` row of the tenant/location pair. -/
def effectiveCutover (db : DB) (tenant_id location_id : Nat) : Int :=
  match db.location_hours.find? fun h =>
      h.tenant_id == tenant_id && h.location_id == location_id with
  | some h => h.business_day_cutover_local
  | none => 5 * 3600

/-- Response of the two business-day endpoints (the `data` object). -/
structure BusinessDayResp where
  business_day_id : Nat
  tenant_id : Nat
  location_id : Nat
  business_date : Int
  starts_at : PyDateTime
  ends_at : PyDateTime

/-- `resolve_business_day` (main.py lines 565-614): locate the location
(404 on miss or tenant mismatch), convert the instant to local time, apply
the cutover rule to pick the business date, compute bounds, then find or
create the `BusinessDay` row.  The response echoes the *computed* bounds. -/
def resolve_business_day (db : DB) (tenant_id location_id : Nat) (at_ : Int) :
    Except ApiError (DB × BusinessDayResp) :=
  match db.locations.find? fun l => l.id == location_id with
  | none => .error (.notFound "location not found")
  | some location =>
    if location.tenant_id ≠ tenant_id then
      .error (.notFound "location not found")
    else
      let tz := location.timezone
      let local_at := tz.fromUtc at_
      let cutover_time := effectiveCutover db tenant_id location_id
      let business_date :=
        if pyTimeOf local_at < cutover_time then pyDateOf local_at - 1
        else pyDateOf local_at
      let bounds := _business_day_bounds business_date tz cutover_time
      let starts_at := bounds.1
      let ends_at := bounds.2
      let found :=
        match db.business_days.find? fun d =>
            d.tenant_id == tenant_id && d.location_id == location_id &&
              d.business_date == business_date with
        | some day => (db, day)
        | none =>
          let day : BusinessDayRow :=
            { id := db.business_days.length + 1
              tenant_id := tenant_id
              location_id := location_id
              business_date := business_date
              starts_at := starts_at
              ends_at := ends_at }
          ({ db with business_days := db.business_days ++ [day] }, day)
      .ok (found.1, { business_day_id := found.2.id
                      tenant_id := tenant_id
                      location_id := location_id
                      business_date := business_date
                      starts_at := starts_at
                      ends_at := ends_at })

/-- `ensure_business_day` (main.py lines 624-664): same creation logic as
`resolve_business_day` but keyed on an explicit calendar date. -/
def ensure_business_day (db : DB) (tenant_id location_id : Nat)
    (business_date : Int) : Except ApiError (DB × BusinessDayResp) :=
  match db.locations.find? fun l => l.id == location_id with
  | none => .error (.notFound "location not found")
  | some location =>
    if location.tenant_id ≠ tenant_id then
      .error (.notFound "location not found")
    else
      let tz := location.timezone
      let cutover_time := effectiveCutover db tenant_id location_id
      let bounds := _business_day_bounds business_date tz cutover_time
      let starts_at := bounds.1
      let ends_at := bounds.2
      let found :=
        match db.business_days.find? fun d =>
            d.tenant_id == tenant_id && d.location_id == location_id &&
              d.business_date == business_date with
        | some day => (db, day)
        | none =>
          let day : BusinessDayRow :=
            { id := db.business_days.length + 1
              tenant_id := tenant_id
              location_id := location_id
              business_date := business_date
              starts_at := starts_at
              ends_at := ends_at }
          ({ db with business_days := db.business_days ++ [day] }, day)
      .ok (found.1, { business_day_id := found.2.id
                      tenant_id := tenant_id
                      location_id := location_id
                      business_date := business_date
                      starts_at := starts_at
                      ends_at := ends_at })

/-! ## Ledger Append Service (main.py lines 125-209) -/

/-- One event dict of a ledger-append batch. `event.get("source_event_id")`
reads the string entry; `_ledger_event_time` probes the datetime-typed
entries, carried as an association list keyed by field name whose value
`none` models JSON `null`. -/
structure LedgerEventInput where
  source_event_id : Option String
  time_fields : List (String × Option Int)

/-- `key in payload and payload[key] is not None` on the datetime-typed
entries: `some (some v)` means present with value `v`; `some none` means
present but null; `none` means absent. -/
def dictGet (fields : List (String × Option Int)) (key : String) :
    Option (Option Int) :=
  (fields.find? fun kv => kv.1 == key).map fun kv => kv.2

/-- The fixed precedence list of `_ledger_event_time` (main.py). -/
def ledgerTimeKeys : List String :=
  ["closed_at", "opened_at", "paid_at", "applied_at", "voided_at",
   "refunded_at", "occurred_at"]

/-- The `for key in (...)` probe of `_ledger_event_time`: first key that is
present and non-null wins. -/
def firstPresentTime (fields : List (String × Option Int)) :
    List String → Option Int
  | [] => none
  | key :: keys =>
    match dictGet fields key with
    | some (some v) => some v
    | _ => firstPresentTime fields keys

/-- `_ledger_event_time` (main.py lines 142-156): prefer a present non-null
`event_time`, else the first present non-null field of the precedence list,
else `_now()` (passed in as `now`). -/
def _ledger_event_time (event : LedgerEventInput) (now : Int) : Int :=
  match dictGet event.time_fields "event_time" with
  | some (some v) => v
  | _ =>
    match firstPresentTime event.time_fields ledgerTimeKeys with
    | some v => v
    | none => now

/-- Summary returned by `_append_ledger_events`. -/
structure LedgerResp where
  accepted : Bool
  ledger : String
  inserted : Nat
  deduped : Nat
  errors : List String

/-- Loop accumulator of `_append_ledger_events`: the session (whose queries
see rows added earlier in the same batch) plus the running counters. -/
structure LedgerAcc where
  db : DB
  inserted : Nat
  deduped : Nat
  errors : List String

/-- Loop body of `_append_ledger_events` (main.py lines 172-201): require a
truthy `source_event_id` (record `missing_source_event_id` and continue
otherwise).  For a truthy one the code then evaluates
`db.query(LedgerEvent)` — but when the handler runs, the module global
`LedgerEvent` is no longer the ORM class imported at main.py line 23: the
pydantic request model `class LedgerEvent(BaseModel)` at main.py line 4093
has rebound it, Python resolves the function's globals at call time, and
SQLAlchemy rejects the non-mapped class.  The dedup check and the
`LedgerEvent(...)` insert of lines 177-201 are therefore unreachable: the
step raises and the whole request aborts with nothing inserted. -/
def ledgerStep (acc : LedgerAcc) (event : LedgerEventInput) :
    Except ApiError LedgerAcc :=
  if ¬ optStrTruthy event.source_event_id then
    .ok { acc with errors := acc.errors ++ ["missing_source_event_id"] }
  else
    .error (.argumentError "LedgerEvent")

/-- `_append_ledger_events` (main.py lines 159-209): fold the loop body
over the batch; an exception from the loop aborts the request before the
commit, with nothing persisted (the session rolls back).  Only a batch in
which every event lacks a truthy `source_event_id` completes: it collects
one error per event, inserts nothing, and commits nothing. -/
def _append_ledger_events (db : DB) (tenant_id : Nat)
    (location_id : Option Nat) (feed_type domain : String)
    (source_system_id : Nat) (business_day_id : Option Nat)
    (events : List LedgerEventInput) (now : Int) :
    Except ApiError (DB × LedgerResp) :=
  match events.foldlM ledgerStep
      { db := db, inserted := 0, deduped := 0, errors := [] } with
  | .error e => .error e
  | .ok acc =>
    .ok (acc.db, { accepted := true
                   ledger := feed_type
                   inserted := acc.inserted
                   deduped := acc.deduped
                   errors := acc.errors })

/-! ## Ticket Upsert Orchestrator (main.py lines 883-1178) -/

/-- `TicketLineItemInput` (main.py). -/
structure TicketLineItemInput where
  source_event_id : String
  external_line_id : Option String := none
  item_id : Option Nat := none
  external_item_key : Option String := none
  item_name_raw : Option String := none
  qty : Int
  uom : Option String := none
  unit_price : Option Int := none
  gross_amount : Int
  discount_amount : Int := 0
  tax_amount : Int := 0
  net_amount : Int

/-- `TicketPaymentInput` (main.py). -/
structure TicketPaymentInput where
  source_event_id : String
  tender_type : String
  amount : Int
  paid_at : Int
  reference : Option String := none

/-- `TicketDiscountInput` (main.py). -/
structure TicketDiscountInput where
  source_event_id : String
  reason : Option String := none
  amount : Int

/-- `TicketVoidInput` (main.py). -/
structure TicketVoidInput where
  source_event_id : String
  reason : Option String := none
  amount : Int

/-- `TicketRefundInput` (main.py). -/
structure TicketRefundInput where
  source_event_id : String
  reason : Option String := none
  amount : Int
  refunded_at : Option Int := none

/-- `TicketChannelInput` (main.py). -/
structure TicketChannelInput where
  provider : Option String := none
  source_channel_code : String
  source_channel_name : Option String := none

/-- `TicketInput` (main.py). -/
structure TicketInput where
  source_event_id : String
  external_ticket_id : Option String := none
  opened_at : Int
  closed_at : Option Int := none
  status : String
  covers : Option Nat := none
  channel : Option TicketChannelInput := none
  gross_amount : Int
  discount_amount : Int := 0
  tax_amount : Int := 0
  net_amount : Int
  line_items : List TicketLineItemInput := []
  payments : List TicketPaymentInput := []
  discounts : List TicketDiscountInput := []
  voids : List TicketVoidInput := []
  refunds : List TicketRefundInput := []

/-- `TicketBulkUpsert` (main.py). -/
structure TicketBulkUpsert where
  tenant_id : Nat
  location_id : Nat
  source_system_id : Nat
  business_day_id : Option Nat := none
  tickets : List TicketInput

/-- One entry of `resolved.line_items` in a per-ticket result. -/
structure ResolvedLineItem where
  source_event_id : String
  ticket_line_item_id : Nat
  item_id : Option Nat
  mapping_status : Option String

/-- The `resolved` object of an UPSERTED per-ticket result. -/
structure TicketResolved where
  business_day_id : Option Nat
  channel_id : Option Nat
  line_items : List ResolvedLineItem

/-- A per-ticket result; `resolved := none` models the empty dict `{}`
returned on the UPDATED path. -/
structure TicketResult where
  source_event_id : String
  ticket_id : Nat
  upsert_status : String
  resolved : Option TicketResolved
  warnings : List String

/-- Response of `bulk_upsert_tickets` (the `data` object). -/
structure BulkTicketsResp where
  accepted : Nat
  updated : Nat
  rejected : Nat
  results : List TicketResult

/-- The 4-tuple lookup of the Dedup Map
(tenant_id, source_system_id, source_event_id, entity_type). -/
def mapKeyHit (tenant_id source_system_id : Nat) (source_event_id
    entity_type : String) (row : IngestionEventMapRow) : Bool :=
  row.tenant_id == tenant_id && row.source_system_id == source_system_id &&
    row.source_event_id == source_event_id && row.entity_type == entity_type

/-- Whether two `IngestionEventMap` rows collide on the unique index
`ix_ingestion_event_map_unique`. -/
def mapKeyConflict (r s : IngestionEventMapRow) : Bool :=
  r.tenant_id == s.tenant_id && r.source_system_id == s.source_system_id &&
    r.source_event_id == s.source_event_id && r.entity_type == s.entity_type

/-- Whether flushing `pending` rows (in order) into a table already holding
`old` rows passes the unique index: each pending row must collide neither
with `old` nor with an earlier pending row.  A `false` means the session
raises `IntegrityError` and the whole request is rolled back. -/
def insertsOk (old : List IngestionEventMapRow) :
    List IngestionEventMapRow → Bool
  | [] => true
  | r :: rs =>
    (old.all fun s => ! mapKeyConflict r s) && insertsOk (old ++ [r]) rs

/-- Working state while a bulk-upsert request processes one ticket: the
session view `db` (pending rows included, as autoflush queries see them),
the `IngestionEventMap` rows pending insertion in flush order, and the
accumulating warnings and resolved line items of the current ticket. -/
structure TickWork where
  db : DB
  newMaps : List IngestionEventMapRow
  warnings : List String
  resolved : List ResolvedLineItem

/-- Record a pending `IngestionEventMap` row. -/
def addMapRow (w : TickWork) (row : IngestionEventMapRow) : TickWork :=
  { w with
      db := { w.db with event_map := w.db.event_map ++ [row] }
      newMaps := w.newMaps ++ [row] }

/-- The item-resolution block of the line-item loop (main.py lines
1016-1029): resolve `item_id` directly or through `ItemExternalKey`; on a
lookup miss keep the given (falsy) `item_id`, mark `UNMAPPED` and warn
`item_not_mapped`.  Returns (item_id, mapping_status, warnings to add). -/
def resolveLineItem (db : DB) (p : TicketBulkUpsert)
    (line : TicketLineItemInput) :
    Option Nat × Option String × List String :=
  if ¬ optNatTruthy line.item_id ∧ optStrTruthy line.external_item_key then
    match db.item_external_keys.find? fun k =>
        k.tenant_id == p.tenant_id &&
          k.source_system_id == p.source_system_id &&
          some k.external_item_key == line.external_item_key with
    | some key_map =>
      (some key_map.item_id, some "MAPPED_BY_EXTERNAL_ITEM_KEY", [])
    | none =>
      (line.item_id, some "UNMAPPED", ["item_not_mapped"])
  else (line.item_id, none, [])

/-- The `for line in ticket_payload.line_items` loop (main.py lines
1015-1063): resolve the item, create the `TicketLineItem` row and its
Dedup Map entry, and accumulate the resolved entry. -/
def lineItemsLoop (p : TicketBulkUpsert) (channel_id : Option Nat)
    (ticket_id : Nat) (now : Int) (w : TickWork) :
    List TicketLineItemInput → TickWork
  | [] => w
  | line :: rest =>
    let resolved0 := resolveLineItem w.db p line
    let item_id := resolved0.1
    let mapping_status := resolved0.2.1
    let warnings := w.warnings ++ resolved0.2.2
    let line_item : TicketLineItemRow :=
      { id := w.db.ticket_line_items.length + 1
        tenant_id := p.tenant_id
        ticket_id := ticket_id
        item_id := item_id
        item_name_raw := line.item_name_raw
        qty := line.qty
        uom := line.uom
        unit_price := line.unit_price
        gross_line_amount := line.gross_amount
        discount_line_amount := line.discount_amount
        tax_line_amount := line.tax_amount
        net_line_amount := line.net_amount
        channel_id := channel_id }
    let w := { w with
                 db := { w.db with
                           ticket_line_items :=
                             w.db.ticket_line_items ++ [line_item] }
                 warnings := warnings }
    let w := addMapRow w
      { tenant_id := p.tenant_id
        source_system_id := p.source_system_id
        source_event_id := line.source_event_id
        entity_type := "ticket_line_item"
        entity_id := line_item.id
        created_at := now }
    let w := { w with
                 resolved := w.resolved ++
                   [{ source_event_id := line.source_event_id
                      ticket_line_item_id := line_item.id
                      item_id := item_id
                      mapping_status := mapping_status }] }
    lineItemsLoop p channel_id ticket_id now w rest

/-- The `for payment in ticket_payload.payments` loop (main.py lines
1064-1084). -/
def paymentsLoop (p : TicketBulkUpsert) (ticket_id : Nat) (now : Int)
    (w : TickWork) : List TicketPaymentInput → TickWork
  | [] => w
  | payment :: rest =>
    let ticket_payment : TicketPaymentRow :=
      { id := w.db.ticket_payments.length + 1
        tenant_id := p.tenant_id
        ticket_id := ticket_id
        paid_at := payment.paid_at
        tender_type := payment.tender_type
        amount := payment.amount
        metadata_reference :=
          if optStrTruthy payment.reference then payment.reference else none }
    let w := { w with
                 db := { w.db with
                           ticket_payments :=
                             w.db.ticket_payments ++ [ticket_payment] } }
    let w := addMapRow w
      { tenant_id := p.tenant_id
        source_system_id := p.source_system_id
        source_event_id := payment.source_event_id
        entity_type := "ticket_payment"
        entity_id := ticket_payment.id
        created_at := now }
    paymentsLoop p ticket_id now w rest

/-- The `for discount in ticket_payload.discounts` loop (main.py lines
1085-1103). -/
def discountsLoop (p : TicketBulkUpsert) (ticket_id : Nat) (now : Int)
    (w : TickWork) : List TicketDiscountInput → TickWork
  | [] => w
  | discount :: rest =>
    let ticket_discount : TicketDiscountRow :=
      { id := w.db.ticket_discounts.length + 1
        tenant_id := p.tenant_id
        ticket_id := ticket_id
        amount := discount.amount
        reason := discount.reason }
    let w := { w with
                 db := { w.db with
                           ticket_discounts :=
                             w.db.ticket_discounts ++ [ticket_discount] } }
    let w := addMapRow w
      { tenant_id := p.tenant_id
        source_system_id := p.source_system_id
        source_event_id := discount.source_event_id
        entity_type := "ticket_discount"
        entity_id := ticket_discount.id
        created_at := now }
    discountsLoop p ticket_id now w rest

/-- The `for void in ticket_payload.voids` loop (main.py lines 1104-1123);
`voided_at` is stamped with the server clock. -/
def voidsLoop (p : TicketBulkUpsert) (ticket_id : Nat) (now : Int)
    (w : TickWork) : List TicketVoidInput → TickWork
  | [] => w
  | void :: rest =>
    let ticket_void : TicketVoidRow :=
      { id := w.db.ticket_voids.length + 1
        tenant_id := p.tenant_id
        ticket_id := ticket_id
        amount := void.amount
        reason := void.reason
        voided_at := now }
    let w := { w with
                 db := { w.db with
                           ticket_voids := w.db.ticket_voids ++ [ticket_void] } }
    let w := addMapRow w
      { tenant_id := p.tenant_id
        source_system_id := p.source_system_id
        source_event_id := void.source_event_id
        entity_type := "ticket_void"
        entity_id := ticket_void.id
        created_at := now }
    voidsLoop p ticket_id now w rest

/-- The `for refund in ticket_payload.refunds` loop (main.py lines
1124-1144); `refunded_at = refund.refunded_at or _now()`. -/
def refundsLoop (p : TicketBulkUpsert) (ticket_id : Nat) (now : Int)
    (w : TickWork) : List TicketRefundInput → TickWork
  | [] => w
  | refund :: rest =>
    let ticket_refund : TicketRefundRow :=
      { id := w.db.ticket_refunds.length + 1
        tenant_id := p.tenant_id
        ticket_id := ticket_id
        amount := refund.amount
        reason := refund.reason
        refunded_at := refund.refunded_at.getD now }
    let w := { w with
                 db := { w.db with
                           ticket_refunds :=
                             w.db.ticket_refunds ++ [ticket_refund] } }
    let w := addMapRow w
      { tenant_id := p.tenant_id
        source_system_id := p.source_system_id
        source_event_id := refund.source_event_id
        entity_type := "ticket_refund"
        entity_id := ticket_refund.id
        created_at := now }
    refundsLoop p ticket_id now w rest

/-- Accumulator of the `for ticket_payload in payload.tickets` loop. -/
structure BulkAcc where
  db : DB
  newMaps : List IngestionEventMapRow
  accepted : Nat
  updated : Nat
  results : List TicketResult

/-- The channel-resolution block of `bulk_upsert_tickets` (main.py lines
985-995): on a `ChannelMapping` miss proceed without a channel id and add
the warning `channel_not_mapped`; never fails the ticket. -/
def resolveChannel (db : DB) (p : TicketBulkUpsert) (t : TicketInput) :
    Option Nat × List String :=
  match t.channel with
  | none => (none, [])
  | some ch =>
    match db.channel_mappings.find? fun c =>
        c.tenant_id == p.tenant_id && c.provider == ch.provider &&
          c.source_channel_code == ch.source_channel_code with
    | some channel => (some channel.id, [])
    | none => (none, ["channel_not_mapped"])

/-- The `Ticket` row created by `bulk_upsert_tickets` (main.py lines
996-1011): resolved channel id and the monetary totals taken as given. -/
def newTicketRow (db : DB) (p : TicketBulkUpsert) (t : TicketInput)
    (channel_id : Option Nat) : TicketRow :=
  { id := db.tickets.length + 1
    tenant_id := p.tenant_id
    location_id := p.location_id
    business_day_id := p.business_day_id
    source_system_id := p.source_system_id
    external_ticket_id := t.external_ticket_id
    opened_at := t.opened_at
    closed_at := t.closed_at
    status := t.status
    covers := t.covers
    channel_id := channel_id
    gross_amount := t.gross_amount
    discount_amount := t.discount_amount
    tax_amount := t.tax_amount
    net_amount := t.net_amount }

/-- Body of the `for ticket_payload in payload.tickets` loop of
`bulk_upsert_tickets` (main.py lines 965-1168): Dedup Map check (UPDATED
and no writes on a hit), channel resolution, ticket creation, the four
child loops, the ticket's own Dedup Map entry last, and the per-ticket
result. -/
def processTicket (p : TicketBulkUpsert) (now : Int) (acc : BulkAcc)
    (t : TicketInput) : BulkAcc :=
  match acc.db.event_map.find?
      (mapKeyHit p.tenant_id p.source_system_id t.source_event_id "ticket") with
  | some mapping =>
    { acc with
        updated := acc.updated + 1
        results := acc.results ++
          [{ source_event_id := t.source_event_id
             ticket_id := mapping.entity_id
             upsert_status := "UPDATED"
             resolved := none
             warnings := [] }] }
  | none =>
    let channelRes := resolveChannel acc.db p t
    let channel_id := channelRes.1
    let ticket := newTicketRow acc.db p t channel_id
    let w : TickWork :=
      { db := { acc.db with tickets := acc.db.tickets ++ [ticket] }
        newMaps := acc.newMaps
        warnings := channelRes.2
        resolved := [] }
    let w := lineItemsLoop p channel_id ticket.id now w t.line_items
    let w := paymentsLoop p ticket.id now w t.payments
    let w := discountsLoop p ticket.id now w t.discounts
    let w := voidsLoop p ticket.id now w t.voids
    let w := refundsLoop p ticket.id now w t.refunds
    let w := addMapRow w
      { tenant_id := p.tenant_id
        source_system_id := p.source_system_id
        source_event_id := t.source_event_id
        entity_type := "ticket"
        entity_id := ticket.id
        created_at := now }
    { db := w.db
      newMaps := w.newMaps
      accepted := acc.accepted + 1
      updated := acc.updated
      results := acc.results ++
        [{ source_event_id := t.source_event_id
           ticket_id := ticket.id
           upsert_status := "UPSERTED"
           resolved := some { business_day_id := p.business_day_id
                              channel_id := channel_id
                              line_items := w.resolved }
           warnings := w.warnings }] }

/-- `bulk_upsert_tickets` (main.py lines 959-1178): process every ticket of
the batch against the session (pending rows visible to in-batch queries),
then commit once; the commit flushes the pending `IngestionEventMap` rows
against the table's unique index and a violation aborts the whole request
with nothing persisted. -/
def bulk_upsert_tickets (db : DB) (p : TicketBulkUpsert) (now : Int) :
    Except ApiError (DB × BulkTicketsResp) :=
  let acc := p.tickets.foldl (processTicket p now)
    { db := db, newMaps := [], accepted := 0, updated := 0, results := [] }
  if insertsOk db.event_map acc.newMaps then
    .ok (acc.db, { accepted := acc.accepted
                   updated := acc.updated
                   rejected := 0
                   results := acc.results })
  else
    .error .integrityError

/-! ## Labor punch ingestion (main.py lines 1300-1397) -/

/-- `LaborPunchInput` (main.py).  Note the pydantic field is named
`metadata`; the row construction at main.py line 1365 reads the
non-existent attribute `metadata_json` from it. -/
structure LaborPunchInput where
  source_event_id : String
  employee_id : Option Nat := none
  employee_external_key : Option String := none
  role : Option String := none
  clock_in : Int
  clock_out : Option Int := none

/-- `LaborPunchBulkUpsert` (main.py). -/
structure LaborPunchBulkUpsert where
  tenant_id : Nat
  location_id : Nat
  source_system_id : Nat
  business_day_id : Option Nat := none
  punches : List LaborPunchInput

/-- A per-punch result entry of `bulk_upsert_labor_punches`. -/
structure PunchResult where
  source_event_id : String
  labor_punch_id : Nat
  resolved_employee_id : Option Nat
  warnings : List String

/-- Accumulator of the `for punch in payload.punches` loop. -/
structure PunchAcc where
  db : DB
  newMaps : List IngestionEventMapRow
  accepted : Nat
  updated : Nat
  rejected : Nat
  results : List PunchResult

/-- Body of the `for punch in payload.punches` loop of
`bulk_upsert_labor_punches` (main.py lines 1327-1387): Dedup Map check
(UPDATED with a result entry on a hit), employee resolution by id or by
(tenant, location, external_key), silent rejection when no employee
resolves, and otherwise the `LaborPunch` creation path — which evaluates
`punch.metadata_json` (main.py line 1365), an attribute `LaborPunchInput`
does not define, so it raises `AttributeError` before creating the row. -/
def punchStep (p : LaborPunchBulkUpsert) (acc : PunchAcc)
    (punch : LaborPunchInput) : Except ApiError PunchAcc :=
  match acc.db.event_map.find?
      (mapKeyHit p.tenant_id p.source_system_id punch.source_event_id
        "labor_punch") with
  | some existing =>
    .ok { acc with
            updated := acc.updated + 1
            results := acc.results ++
              [{ source_event_id := punch.source_event_id
                 labor_punch_id := existing.entity_id
                 resolved_employee_id := punch.employee_id
                 warnings := [] }] }
  | none =>
    let employee_id :=
      if ¬ optNatTruthy punch.employee_id ∧
          optStrTruthy punch.employee_external_key then
        match acc.db.employees.find? fun e =>
            e.tenant_id == p.tenant_id &&
              e.location_id == some p.location_id &&
              e.external_key == punch.employee_external_key with
        | some employee => some employee.id
        | none => punch.employee_id
      else punch.employee_id
    if ¬ optNatTruthy employee_id then
      .ok { acc with rejected := acc.rejected + 1 }
    else
      .error (.attributeError "metadata_json")

/-- `bulk_upsert_labor_punches` (main.py lines 1319-1397): fold the loop
body over the batch (an `AttributeError` from the creation path aborts the
request), then commit once, flushing pending `IngestionEventMap` rows
against the unique index. -/
def bulk_upsert_labor_punches (db : DB) (p : LaborPunchBulkUpsert) :
    Except ApiError (DB × Nat × Nat × Nat × List PunchResult) :=
  match p.punches.foldlM (punchStep p)
      { db := db, newMaps := [], accepted := 0, updated := 0, rejected := 0,
        results := [] } with
  | .error e => .error e
  | .ok acc =>
    if insertsOk db.event_map acc.newMaps then
      .ok (acc.db, acc.accepted, acc.updated, acc.rejected, acc.results)
    else
      .error .integrityError

/-! ## Concrete fixtures and observers used in closed instances -/

/-- A database with every table empty. -/
def emptyDB : DB :=
  ⟨[], [], [], [], [], [], [], [], [], [], [], [], [], [], []⟩

/-- `Asia/Karachi`: UTC+5 with no DST. -/
def tzKhi : Tz := ⟨fun u => u + 5 * 3600⟩

/-- A location of tenant 1 in `Asia/Karachi`. -/
def locKhi : LocationRow := ⟨10, 1, tzKhi⟩

/-- A database holding only `locKhi` (cutover therefore defaults to 05:00). -/
def dbKhi : DB := { emptyDB with locations := [locKhi] }

/-- Observe the `business_date` of a business-day endpoint response. -/
def respBusinessDate : Except ApiError (DB × BusinessDayResp) → Option Int
  | .ok x => some x.2.business_date
  | .error _ => none

/-! ## Claims -/

/-- C8: for every location timezone, business date and configured cutover,
the bounds computed by `_business_day_bounds` satisfy `starts_at =
combine(business_date, cutover, tz)` and `ends_at - starts_at = 86399`
seconds, and every successful `resolve`/`ensure` response (whose bounds are
exactly what a created `BusinessDay` row stores) spans 86399 seconds with
`starts_at` the combination of its business date with the effective cutover
in the location's timezone. -/
theorem c8_bounds_span_86399 :
    (∀ (d : Int) (tz : Tz) (c : Int),
      (_business_day_bounds d tz c).1 = pyCombine d c tz ∧
      pySubSameTzinfo (_business_day_bounds d tz c).2
        (_business_day_bounds d tz c).1 = 86399) ∧
    (∀ (db : DB) (tid lid : Nat) (at_ : Int) (db' : DB) (r : BusinessDayResp),
      resolve_business_day db tid lid at_ = .ok (db', r) →
      pySubSameTzinfo r.ends_at r.starts_at = 86399 ∧
      r.starts_at = pyCombine r.business_date
        (effectiveCutover db tid lid) r.starts_at.tz) ∧
    (∀ (db : DB) (tid lid : Nat) (bd : Int) (db' : DB) (r : BusinessDayResp),
      ensure_business_day db tid lid bd = .ok (db', r) →
      pySubSameTzinfo r.ends_at r.starts_at = 86399 ∧
      r.starts_at = pyCombine r.business_date
        (effectiveCutover db tid lid) r.starts_at.tz) := by
  refine ⟨?_, ?_, ?_⟩
  · intro d tz c
    exact ⟨rfl, by simp [_business_day_bounds, pyCombine, pyAddSeconds,
      pySubSameTzinfo]⟩
  · intro db tid lid at_ db' r h
    unfold resolve_business_day at h
    split at h
    · cases h
    · split at h
      · cases h
      · simp only [Except.ok.injEq, Prod.mk.injEq] at h
        obtain ⟨-, hr⟩ := h
        subst hr
        exact ⟨by simp [_business_day_bounds, pyCombine, pyAddSeconds,
          pySubSameTzinfo], rfl⟩
  · intro db tid lid bd db' r h
    unfold ensure_business_day at h
    split at h
    · cases h
    · split at h
      · cases h
      · simp only [Except.ok.injEq, Prod.mk.injEq] at h
        obtain ⟨-, hr⟩ := h
        subst hr
        exact ⟨by simp [_business_day_bounds, pyCombine, pyAddSeconds,
          pySubSameTzinfo], rfl⟩

/-- C8 witness: the span and combine facts hold for the concrete resolve
call of tenant 1, location 10 at instant 1768521540 (2026-01-15 23:59:00
UTC) against `dbKhi`. -/
theorem c8_bounds_span_86399_witness :
    ∃ dbr, resolve_business_day dbKhi 1 10 1768521540 = .ok dbr ∧
      pySubSameTzinfo dbr.2.ends_at dbr.2.starts_at = 86399 := by
  refine ⟨(resolve_business_day dbKhi 1 10 1768521540).toOption.get (by rfl),
    by rfl, ?_⟩
  exact (c8_bounds_span_86399.2.1 dbKhi 1 10 1768521540 _ _ (by rfl)).1

/-- C2: with an effective cutover of 05:00, `resolve_business_day` assigns
an instant whose location-local time-of-day is strictly before the cutover
to the previous calendar date and an instant at or after the cutover to the
local date itself; concretely against `dbKhi`, local 2026-01-16 04:59
resolves to business date 2026-01-15 (day 20468) and local 2026-01-16
05:00 to 2026-01-16 (day 20469). -/
theorem c2_resolve_cutover_boundary :
    (∀ (db : DB) (tid lid : Nat) (at_ : Int) (loc : LocationRow),
      db.locations.find? (fun l => l.id == lid) = some loc →
      loc.tenant_id = tid →
      effectiveCutover db tid lid = 5 * 3600 →
      ∃ db' r, resolve_business_day db tid lid at_ = .ok (db', r) ∧
        r.business_date =
          (if pyTimeOf (loc.timezone.fromUtc at_) < 5 * 3600
           then pyDateOf (loc.timezone.fromUtc at_) - 1
           else pyDateOf (loc.timezone.fromUtc at_))) ∧
    respBusinessDate (resolve_business_day dbKhi 1 10 1768521540) =
      some 20468 ∧
    respBusinessDate (resolve_business_day dbKhi 1 10 1768521600) =
      some 20469 := by
  refine ⟨?_, by rfl, by rfl⟩
  intro db tid lid at_ loc hloc ht hcut
  simp only [resolve_business_day, hloc, hcut]
  rw [if_neg (not_not_intro ht)]
  exact ⟨_, _, rfl, rfl⟩

/-- C2 witness: the cutover-boundary property instantiated at both sides of
the boundary against the concrete `dbKhi`. -/
theorem c2_resolve_cutover_boundary_witness :
    (∃ db' r, resolve_business_day dbKhi 1 10 1768521540 = .ok (db', r) ∧
      r.business_date =
        (if pyTimeOf (locKhi.timezone.fromUtc 1768521540) < 5 * 3600
         then pyDateOf (locKhi.timezone.fromUtc 1768521540) - 1
         else pyDateOf (locKhi.timezone.fromUtc 1768521540))) ∧
    (∃ db' r, resolve_business_day dbKhi 1 10 1768521600 = .ok (db', r) ∧
      r.business_date =
        (if pyTimeOf (locKhi.timezone.fromUtc 1768521600) < 5 * 3600
         then pyDateOf (locKhi.timezone.fromUtc 1768521600) - 1
         else pyDateOf (locKhi.timezone.fromUtc 1768521600))) :=
  ⟨c2_resolve_cutover_boundary.1 dbKhi 1 10 1768521540 locKhi (by rfl)
      (by rfl) (by rfl),
    c2_resolve_cutover_boundary.1 dbKhi 1 10 1768521600 locKhi (by rfl)
      (by rfl) (by rfl)⟩

/-- A record update of `business_days` leaves the cutover lookup (which
reads `location_hours`) unchanged. -/
theorem effectiveCutover_business_days (db : DB) (b : List BusinessDayRow)
    (tid lid : Nat) :
    effectiveCutover { db with business_days := b } tid lid =
      effectiveCutover db tid lid := rfl

/-- C3: both business-day operations are idempotent: a second call with the
same inputs against the state left by the first returns the very same
response (same `business_day_id`, identical `starts_at`/`ends_at`) without
touching the state, and when the initial state held at most one
`BusinessDay` row for the (tenant, location, business_date) triple, so does
the final state. -/
theorem c3_resolve_ensure_idempotent :
    (∀ (db : DB) (tid lid : Nat) (at_ : Int) (db₁ : DB)
        (r₁ : BusinessDayResp),
      resolve_business_day db tid lid at_ = .ok (db₁, r₁) →
      resolve_business_day db₁ tid lid at_ = .ok (db₁, r₁) ∧
      (db.business_days.countP
          (fun d => d.tenant_id == tid && d.location_id == lid &&
            d.business_date == r₁.business_date) ≤ 1 →
        db₁.business_days.countP
          (fun d => d.tenant_id == tid && d.location_id == lid &&
            d.business_date == r₁.business_date) ≤ 1)) ∧
    (∀ (db : DB) (tid lid : Nat) (bd : Int) (db₁ : DB)
        (r₁ : BusinessDayResp),
      ensure_business_day db tid lid bd = .ok (db₁, r₁) →
      ensure_business_day db₁ tid lid bd = .ok (db₁, r₁) ∧
      (db.business_days.countP
          (fun d => d.tenant_id == tid && d.location_id == lid &&
            d.business_date == r₁.business_date) ≤ 1 →
        db₁.business_days.countP
          (fun d => d.tenant_id == tid && d.location_id == lid &&
            d.business_date == r₁.business_date) ≤ 1)) := by
  constructor
  · intro db tid lid at_ db₁ r₁ h
    unfold resolve_business_day at h
    split at h
    · cases h
    next loc hloc =>
      split at h
      · cases h
      next ht =>
        dsimp only at h
        split at h
        next day hday =>
          simp only [Except.ok.injEq, Prod.mk.injEq] at h
          obtain ⟨hdb, hr⟩ := h
          subst hdb
          subst hr
          refine ⟨?_, fun hc => hc⟩
          simp only [resolve_business_day, hloc]
          rw [if_neg ht]
          simp only [hday]
        next hday =>
          simp only [Except.ok.injEq, Prod.mk.injEq] at h
          obtain ⟨hdb, hr⟩ := h
          subst hdb
          subst hr
          constructor
          · simp only [resolve_business_day, effectiveCutover_business_days,
              hloc]
            rw [if_neg ht]
            simp only [List.find?_append, hday, Option.none_or,
              List.find?_cons, beq_self_eq_true, Bool.and_self]
          · intro hc
            simp only [List.countP_append, List.countP_cons,
              beq_self_eq_true, Bool.and_self, List.countP_nil, if_true,
              decide_True, decide_eq_true_eq] at *
            have h0 : db.business_days.countP
                (fun d => d.tenant_id == tid && d.location_id == lid &&
                  d.business_date ==
                    (if pyTimeOf (loc.timezone.fromUtc at_) <
                        effectiveCutover db tid lid then
                      pyDateOf (loc.timezone.fromUtc at_) - 1
                    else pyDateOf (loc.timezone.fromUtc at_))) = 0 :=
              List.countP_eq_zero.mpr (List.find?_eq_none.mp hday)
            omega
  · intro db tid lid bd db₁ r₁ h
    unfold ensure_business_day at h
    split at h
    · cases h
    next loc hloc =>
      split at h
      · cases h
      next ht =>
        dsimp only at h
        split at h
        next day hday =>
          simp only [Except.ok.injEq, Prod.mk.injEq] at h
          obtain ⟨hdb, hr⟩ := h
          subst hdb
          subst hr
          refine ⟨?_, fun hc => hc⟩
          simp only [ensure_business_day, hloc]
          rw [if_neg ht]
          simp only [hday]
        next hday =>
          simp only [Except.ok.injEq, Prod.mk.injEq] at h
          obtain ⟨hdb, hr⟩ := h
          subst hdb
          subst hr
          constructor
          · simp only [ensure_business_day, effectiveCutover_business_days,
              hloc]
            rw [if_neg ht]
            simp only [List.find?_append, hday, Option.none_or,
              List.find?_cons, beq_self_eq_true, Bool.and_self]
          · intro hc
            simp only [List.countP_append, List.countP_cons,
              beq_self_eq_true, Bool.and_self, List.countP_nil, if_true,
              decide_True, decide_eq_true_eq] at *
            have h0 : db.business_days.countP
                (fun d => d.tenant_id == tid && d.location_id == lid &&
                  d.business_date == bd) = 0 :=
              List.countP_eq_zero.mpr (List.find?_eq_none.mp hday)
            omega

/-- C3 witness: the idempotence fact instantiated at the concrete resolve
call of tenant 1, location 10 against `dbKhi`. -/
theorem c3_resolve_ensure_idempotent_witness :
    ∃ dbr, resolve_business_day dbKhi 1 10 1768521540 = .ok dbr ∧
      resolve_business_day dbr.1 1 10 1768521540 = .ok dbr := by
  refine ⟨(resolve_business_day dbKhi 1 10 1768521540).toOption.get (by rfl),
    by rfl, ?_⟩
  exact (c3_resolve_ensure_idempotent.1 dbKhi 1 10 1768521540 _ _ (by rfl)).1

/-! ### Ledger append: reachable behavior -/

/-- Monadic bind on a successful `Except` computes the continuation. -/
theorem exceptBind_ok {e a b : Type} (x : a) (f : a → Except e b) :
    (Except.ok x : Except e a) >>= f = f x := rfl

/-- Monadic bind on a failed `Except` propagates the failure. -/
theorem exceptBind_error {e a b : Type} (err : e) (f : a → Except e b) :
    (Except.error err : Except e a) >>= f = Except.error err := rfl

/-- A batch containing any event with a truthy `source_event_id` aborts at
the first such event: the loop body raises on the shadowed `LedgerEvent`
name. -/
theorem ledger_foldlM_error :
    ∀ (events : List LedgerEventInput) (acc : LedgerAcc),
      (∃ e ∈ events, optStrTruthy e.source_event_id = true) →
      events.foldlM ledgerStep acc =
        .error (.argumentError "LedgerEvent") := by
  intro events
  induction events with
  | nil =>
    intro acc h
    obtain ⟨e, he, -⟩ := h
    cases he
  | cons a as ih =>
    intro acc h
    cases htr : optStrTruthy a.source_event_id
    · have hstep : ledgerStep acc a =
          .ok { acc with
                  errors := acc.errors ++ ["missing_source_event_id"] } := by
        simp [ledgerStep, htr]
      obtain ⟨e, he, het⟩ := h
      rcases List.mem_cons.mp he with rfl | he
      · rw [htr] at het
        cases het
      · rw [List.foldlM_cons, hstep, exceptBind_ok]
        exact ih _ ⟨e, he, het⟩
    · have hstep : ledgerStep acc a =
          .error (.argumentError "LedgerEvent") := by
        simp [ledgerStep, htr]
      rw [List.foldlM_cons, hstep, exceptBind_error]

/-- A batch in which every event lacks a truthy `source_event_id` runs to
completion, collecting one `missing_source_event_id` error per event and
changing nothing else. -/
theorem ledger_foldlM_all_missing :
    ∀ (events : List LedgerEventInput) (acc : LedgerAcc),
      (∀ e ∈ events, optStrTruthy e.source_event_id = false) →
      events.foldlM ledgerStep acc =
        .ok { acc with
                errors := acc.errors ++
                  events.map (fun _ => "missing_source_event_id") } := by
  intro events
  induction events with
  | nil =>
    intro acc _
    simp only [List.foldlM_nil, List.map_nil, List.append_nil]
    rfl
  | cons a as ih =>
    intro acc h
    have hstep : ledgerStep acc a =
        .ok { acc with
                errors := acc.errors ++ ["missing_source_event_id"] } := by
      simp [ledgerStep, h a (List.mem_cons_self a as)]
    rw [List.foldlM_cons, hstep, exceptBind_ok,
      ih _ (fun e he => h e (List.mem_cons_of_mem a he))]
    simp

/-- A completed batch never inserted, never deduped, and never changed the
session. -/
theorem ledger_foldlM_ok_frame :
    ∀ (events : List LedgerEventInput) (acc acc' : LedgerAcc),
      events.foldlM ledgerStep acc = .ok acc' →
      acc'.db = acc.db ∧ acc'.inserted = acc.inserted ∧
      acc'.deduped = acc.deduped := by
  intro events
  induction events with
  | nil =>
    intro acc acc' h
    simp only [List.foldlM_nil] at h
    cases h
    exact ⟨rfl, rfl, rfl⟩
  | cons a as ih =>
    intro acc acc' h
    cases htr : optStrTruthy a.source_event_id
    · have hstep : ledgerStep acc a =
          .ok { acc with
                  errors := acc.errors ++ ["missing_source_event_id"] } := by
        simp [ledgerStep, htr]
      rw [List.foldlM_cons, hstep, exceptBind_ok] at h
      exact ih { acc with
        errors := acc.errors ++ ["missing_source_event_id"] } acc' h
    · have hstep : ledgerStep acc a =
          .error (.argumentError "LedgerEvent") := by
        simp [ledgerStep, htr]
      rw [List.foldlM_cons, hstep, exceptBind_error] at h
      cases h

/-- C5 (code bug): the claimed insert-then-dedup behavior is unreachable.
Any ledger-append batch containing an event with a truthy
`source_event_id` — in particular the first submission of the claim's
repeated event — aborts on the shadowed `LedgerEvent` global (main.py line
4093) before anything is inserted, and a call that does return reports
`inserted = 0`, `deduped = 0` with the state unchanged: `inserted = 1`
then `deduped = 1` with exactly one stored row never happens. -/
theorem c5_ledger_append_dedup_unreachable :
    (∀ (db : DB) (tenant_id : Nat) (location_id : Option Nat)
        (feed_type domain : String) (source_system_id : Nat)
        (business_day_id : Option Nat) (events : List LedgerEventInput)
        (now : Int) (e : LedgerEventInput),
      e ∈ events → optStrTruthy e.source_event_id = true →
      _append_ledger_events db tenant_id location_id feed_type domain
          source_system_id business_day_id events now =
        .error (.argumentError "LedgerEvent")) ∧
    (∀ (db : DB) (tenant_id : Nat) (location_id : Option Nat)
        (feed_type domain : String) (source_system_id : Nat)
        (business_day_id : Option Nat) (events : List LedgerEventInput)
        (now : Int) (db' : DB) (r : LedgerResp),
      _append_ledger_events db tenant_id location_id feed_type domain
          source_system_id business_day_id events now = .ok (db', r) →
      r.inserted = 0 ∧ r.deduped = 0 ∧ db' = db) := by
  constructor
  · intro db tid lid ft dom ss bd events now e he het
    unfold _append_ledger_events
    rw [ledger_foldlM_error events _ ⟨e, he, het⟩]
  · intro db tid lid ft dom ss bd events now db' r h
    unfold _append_ledger_events at h
    cases hfold : events.foldlM ledgerStep
        { db := db, inserted := 0, deduped := 0, errors := [] } with
    | error e => rw [hfold] at h; cases h
    | ok acc =>
      rw [hfold] at h
      obtain ⟨h1, h2, h3⟩ := ledger_foldlM_ok_frame events _ acc hfold
      simp only [Except.ok.injEq, Prod.mk.injEq] at h
      obtain ⟨hdb, hr⟩ := h
      subst hdb
      subst hr
      exact ⟨h2, h3, h1⟩

/-- C5 witness: the first append of the claim's concrete event "E-1"
already aborts with the argument error. -/
theorem c5_ledger_append_dedup_unreachable_witness :
    _append_ledger_events emptyDB 1 (some 10) "ERP_SALES_LEDGER" "pos" 1
        none [{ source_event_id := some "E-1", time_fields := [] }] 0 =
      .error (.argumentError "LedgerEvent") :=
  c5_ledger_append_dedup_unreachable.1 emptyDB 1 (some 10)
    "ERP_SALES_LEDGER" "pos" 1 none
    [{ source_event_id := some "E-1", time_fields := [] }] 0
    { source_event_id := some "E-1", time_fields := [] }
    (List.mem_singleton.mpr rfl) (by rfl)

/-- C6 (code bug): the claimed skip-and-continue outcome is unreachable
for the claim's batch.  Only a batch in which every event lacks a
`source_event_id` completes — collecting one `missing_source_event_id`
error per event, inserting nothing and changing nothing — while the
claim's 3-event batch (only event #2 lacking the id) aborts at event #1
on the shadowed `LedgerEvent` global with zero rows persisted, instead of
returning `inserted = 2` with 2 rows. -/
theorem c6_ledger_missing_source_event_id :
    (∀ (db : DB) (tenant_id : Nat) (location_id : Option Nat)
        (feed_type domain : String) (source_system_id : Nat)
        (business_day_id : Option Nat) (events : List LedgerEventInput)
        (now : Int),
      (∀ e ∈ events, optStrTruthy e.source_event_id = false) →
      _append_ledger_events db tenant_id location_id feed_type domain
          source_system_id business_day_id events now =
        .ok (db, { accepted := true
                   ledger := feed_type
                   inserted := 0
                   deduped := 0
                   errors := events.map
                     (fun _ => "missing_source_event_id") })) ∧
    _append_ledger_events emptyDB 1 (some 10) "ERP_SALES_LEDGER" "pos" 1
        none
        [{ source_event_id := some "L-1", time_fields := [] },
         { source_event_id := none, time_fields := [] },
         { source_event_id := some "L-3", time_fields := [] }] 0 =
      .error (.argumentError "LedgerEvent") := by
  constructor
  · intro db tid lid ft dom ss bd events now h
    unfold _append_ledger_events
    rw [ledger_foldlM_all_missing events _ h]
    simp
  · rfl

/-- C6 witness: a batch of one id-less event completes with exactly the
per-event error and nothing persisted. -/
theorem c6_ledger_missing_source_event_id_witness :
    _append_ledger_events emptyDB 1 (some 10) "ERP_SALES_LEDGER" "pos" 1
        none [{ source_event_id := none, time_fields := [] }] 0 =
      .ok (emptyDB,
        { accepted := true, ledger := "ERP_SALES_LEDGER", inserted := 0,
          deduped := 0, errors := ["missing_source_event_id"] }) :=
  c6_ledger_missing_source_event_id.1 emptyDB 1 (some 10)
    "ERP_SALES_LEDGER" "pos" 1 none
    [{ source_event_id := none, time_fields := [] }] 0
    (by
      intro e he
      rw [List.mem_singleton] at he
      subst he
      rfl)

/-- An absent-or-null key is skipped by the precedence probe. -/
theorem firstPresentTime_skip (fields : List (String × Option Int))
    (k : String) (ks : List String)
    (h : dictGet fields k = none ∨ dictGet fields k = some none) :
    firstPresentTime fields (k :: ks) = firstPresentTime fields ks := by
  rcases h with h | h <;> simp [firstPresentTime, h]

/-- The probe returns the first present, non-null key of the list. -/
theorem firstPresentTime_of_prefix_absent
    (fields : List (String × Option Int)) :
    ∀ (ks₁ : List String) (k : String) (ks₂ : List String) (v : Int),
      (∀ k' ∈ ks₁, dictGet fields k' = none ∨
        dictGet fields k' = some none) →
      dictGet fields k = some (some v) →
      firstPresentTime fields (ks₁ ++ k :: ks₂) = some v := by
  intro ks₁
  induction ks₁ with
  | nil =>
    intro k ks₂ v _ hk
    simp [firstPresentTime, hk]
  | cons a as ih =>
    intro k ks₂ v habs hk
    rw [List.cons_append, firstPresentTime_skip _ _ _ (habs a (by simp))]
    exact ih k ks₂ v (fun k' hm => habs k' (by simp [hm])) hk

/-- The probe yields nothing when every key is absent or null. -/
theorem firstPresentTime_all_absent (fields : List (String × Option Int)) :
    ∀ ks : List String,
      (∀ k ∈ ks, dictGet fields k = none ∨ dictGet fields k = some none) →
      firstPresentTime fields ks = none := by
  intro ks
  induction ks with
  | nil => intro; rfl
  | cons a as ih =>
    intro h
    rw [firstPresentTime_skip _ _ _ (h a (by simp))]
    exact ih (fun k hm => h k (by simp [hm]))

/-- C7 (code bug): the derivation helper `_ledger_event_time` does follow
the claimed precedence — `event_time` when present and non-null, else the
first present non-null field of `closed_at, opened_at, paid_at,
applied_at, voided_at, refunded_at, occurred_at` in that exact order, else
the server clock — but no `occurred_at` is ever *stored*: any ledger
append of an event with a truthy `source_event_id` aborts on the shadowed
`LedgerEvent` global (main.py line 4093) before the row is created. -/
theorem c7_occurred_at_precedence :
    (∀ (ev : LedgerEventInput) (now v : Int),
      dictGet ev.time_fields "event_time" = some (some v) →
      _ledger_event_time ev now = v) ∧
    (∀ (ev : LedgerEventInput) (now v : Int) (ks₁ : List String)
        (k : String) (ks₂ : List String),
      ledgerTimeKeys = ks₁ ++ k :: ks₂ →
      (dictGet ev.time_fields "event_time" = none ∨
        dictGet ev.time_fields "event_time" = some none) →
      (∀ k' ∈ ks₁, dictGet ev.time_fields k' = none ∨
        dictGet ev.time_fields k' = some none) →
      dictGet ev.time_fields k = some (some v) →
      _ledger_event_time ev now = v) ∧
    (∀ (ev : LedgerEventInput) (now : Int),
      (dictGet ev.time_fields "event_time" = none ∨
        dictGet ev.time_fields "event_time" = some none) →
      (∀ k ∈ ledgerTimeKeys, dictGet ev.time_fields k = none ∨
        dictGet ev.time_fields k = some none) →
      _ledger_event_time ev now = now) ∧
    (∀ (db : DB) (tenant_id : Nat) (location_id : Option Nat)
        (feed_type domain : String) (source_system_id : Nat)
        (business_day_id : Option Nat) (ev : LedgerEventInput) (now : Int),
      optStrTruthy ev.source_event_id = true →
      _append_ledger_events db tenant_id location_id feed_type domain
          source_system_id business_day_id [ev] now =
        .error (.argumentError "LedgerEvent")) := by
  refine ⟨?_, ?_, ?_, ?_⟩
  · intro ev now v h
    simp [_ledger_event_time, h]
  · intro ev now v ks₁ k ks₂ hkeys hev habs hk
    have hfirst : firstPresentTime ev.time_fields ledgerTimeKeys = some v := by
      rw [hkeys]
      exact firstPresentTime_of_prefix_absent _ ks₁ k ks₂ v habs hk
    rcases hev with hev | hev <;> simp [_ledger_event_time, hev, hfirst]
  · intro ev now hev habs
    have hfirst : firstPresentTime ev.time_fields ledgerTimeKeys = none :=
      firstPresentTime_all_absent _ _ habs
    rcases hev with hev | hev <;> simp [_ledger_event_time, hev, hfirst]
  · intro db tid lid ft dom ss bd ev now htr
    unfold _append_ledger_events
    rw [ledger_foldlM_error [ev] _ ⟨ev, List.mem_singleton.mpr rfl, htr⟩]

/-- C7 witness: a payload with a null `closed_at` and `opened_at = 42`
gets `occurred_at = 42` (second-choice precedence), instantiating the
prefix-absent clause with `ks₁ = ["closed_at"]`. -/
theorem c7_occurred_at_precedence_witness :
    _ledger_event_time
      { source_event_id := some "E-1"
        time_fields := [("closed_at", none), ("opened_at", some 42)] }
      0 = 42 :=
  c7_occurred_at_precedence.2.1
    { source_event_id := some "E-1"
      time_fields := [("closed_at", none), ("opened_at", some 42)] }
    0 42 ["closed_at"] "opened_at"
    ["paid_at", "applied_at", "voided_at", "refunded_at", "occurred_at"]
    (by rfl) (by left; rfl)
    (by intro k hk; right; simp at hk; simp [hk, dictGet])
    (by rfl)

/-! ### Ticket orchestrator: child-loop invariants -/

/-- The payments loop only appends payment rows and their Dedup Map
entries, the latter recorded identically in the session and in the pending
flush list. -/
theorem paymentsLoop_facts (p : TicketBulkUpsert) (tid : Nat) (now : Int) :
    ∀ (ps : List TicketPaymentInput) (w : TickWork),
      ∃ (delta : List IngestionEventMapRow) (rows : List TicketPaymentRow),
        paymentsLoop p tid now w ps =
          { db := { w.db with
                      ticket_payments := w.db.ticket_payments ++ rows
                      event_map := w.db.event_map ++ delta }
            newMaps := w.newMaps ++ delta
            warnings := w.warnings
            resolved := w.resolved } ∧
        rows.length = ps.length ∧
        (∀ r ∈ delta, r.tenant_id = p.tenant_id ∧
          r.source_system_id = p.source_system_id ∧
          r.entity_type = "ticket_payment") ∧
        (∀ x ∈ ps, ∃ r ∈ delta, r.source_event_id = x.source_event_id) := by
  intro ps
  induction ps with
  | nil =>
    intro w
    exact ⟨[], [], by simp [paymentsLoop], rfl, by simp, by simp⟩
  | cons x xs ih =>
    intro w
    have hstep : paymentsLoop p tid now w (x :: xs) =
        paymentsLoop p tid now
          (addMapRow
            { w with db := { w.db with
                ticket_payments := w.db.ticket_payments ++
                  [⟨w.db.ticket_payments.length + 1, p.tenant_id, tid,
                    x.paid_at, x.tender_type, x.amount,
                    if optStrTruthy x.reference then x.reference
                    else none⟩] } }
            ⟨p.tenant_id, p.source_system_id, x.source_event_id,
              "ticket_payment", w.db.ticket_payments.length + 1, now⟩)
          xs := rfl
    obtain ⟨delta, rows, heq, hlen, hmem, hcov⟩ := ih
      (addMapRow
        { w with db := { w.db with
            ticket_payments := w.db.ticket_payments ++
              [⟨w.db.ticket_payments.length + 1, p.tenant_id, tid,
                x.paid_at, x.tender_type, x.amount,
                if optStrTruthy x.reference then x.reference
                else none⟩] } }
        ⟨p.tenant_id, p.source_system_id, x.source_event_id,
          "ticket_payment", w.db.ticket_payments.length + 1, now⟩)
    refine ⟨⟨p.tenant_id, p.source_system_id, x.source_event_id,
        "ticket_payment", w.db.ticket_payments.length + 1, now⟩ :: delta,
      ⟨w.db.ticket_payments.length + 1, p.tenant_id, tid, x.paid_at,
        x.tender_type, x.amount,
        if optStrTruthy x.reference then x.reference else none⟩ :: rows,
      ?_, by simp [hlen], ?_, ?_⟩
    · rw [hstep, heq]
      simp [addMapRow]
    · intro r hr
      rcases List.mem_cons.mp hr with hr | hr
      · subst hr; exact ⟨rfl, rfl, rfl⟩
      · exact hmem r hr
    · intro y hy
      rcases List.mem_cons.mp hy with hy | hy
      · subst hy
        exact ⟨_, List.mem_cons_self _ _, rfl⟩
      · obtain ⟨r, hrd, hrs⟩ := hcov y hy
        exact ⟨r, List.mem_cons_of_mem _ hrd, hrs⟩

/-- The discounts loop only appends discount rows and their Dedup Map
entries. -/
theorem discountsLoop_facts (p : TicketBulkUpsert) (tid : Nat) (now : Int) :
    ∀ (ds : List TicketDiscountInput) (w : TickWork),
      ∃ (delta : List IngestionEventMapRow) (rows : List TicketDiscountRow),
        discountsLoop p tid now w ds =
          { db := { w.db with
                      ticket_discounts := w.db.ticket_discounts ++ rows
                      event_map := w.db.event_map ++ delta }
            newMaps := w.newMaps ++ delta
            warnings := w.warnings
            resolved := w.resolved } ∧
        rows.length = ds.length ∧
        (∀ r ∈ delta, r.tenant_id = p.tenant_id ∧
          r.source_system_id = p.source_system_id ∧
          r.entity_type = "ticket_discount") ∧
        (∀ x ∈ ds, ∃ r ∈ delta, r.source_event_id = x.source_event_id) := by
  intro ds
  induction ds with
  | nil =>
    intro w
    exact ⟨[], [], by simp [discountsLoop], rfl, by simp, by simp⟩
  | cons x xs ih =>
    intro w
    have hstep : discountsLoop p tid now w (x :: xs) =
        discountsLoop p tid now
          (addMapRow
            { w with db := { w.db with
                ticket_discounts := w.db.ticket_discounts ++
                  [⟨w.db.ticket_discounts.length + 1, p.tenant_id, tid,
                    x.amount, x.reason⟩] } }
            ⟨p.tenant_id, p.source_system_id, x.source_event_id,
              "ticket_discount", w.db.ticket_discounts.length + 1, now⟩)
          xs := rfl
    obtain ⟨delta, rows, heq, hlen, hmem, hcov⟩ := ih
      (addMapRow
        { w with db := { w.db with
            ticket_discounts := w.db.ticket_discounts ++
              [⟨w.db.ticket_discounts.length + 1, p.tenant_id, tid,
                x.amount, x.reason⟩] } }
        ⟨p.tenant_id, p.source_system_id, x.source_event_id,
          "ticket_discount", w.db.ticket_discounts.length + 1, now⟩)
    refine ⟨⟨p.tenant_id, p.source_system_id, x.source_event_id,
        "ticket_discount", w.db.ticket_discounts.length + 1, now⟩ :: delta,
      ⟨w.db.ticket_discounts.length + 1, p.tenant_id, tid, x.amount,
        x.reason⟩ :: rows, ?_, by simp [hlen], ?_, ?_⟩
    · rw [hstep, heq]
      simp [addMapRow]
    · intro r hr
      rcases List.mem_cons.mp hr with hr | hr
      · subst hr; exact ⟨rfl, rfl, rfl⟩
      · exact hmem r hr
    · intro y hy
      rcases List.mem_cons.mp hy with hy | hy
      · subst hy
        exact ⟨_, List.mem_cons_self _ _, rfl⟩
      · obtain ⟨r, hrd, hrs⟩ := hcov y hy
        exact ⟨r, List.mem_cons_of_mem _ hrd, hrs⟩

/-- The voids loop only appends void rows and their Dedup Map entries. -/
theorem voidsLoop_facts (p : TicketBulkUpsert) (tid : Nat) (now : Int) :
    ∀ (vs : List TicketVoidInput) (w : TickWork),
      ∃ (delta : List IngestionEventMapRow) (rows : List TicketVoidRow),
        voidsLoop p tid now w vs =
          { db := { w.db with
                      ticket_voids := w.db.ticket_voids ++ rows
                      event_map := w.db.event_map ++ delta }
            newMaps := w.newMaps ++ delta
            warnings := w.warnings
            resolved := w.resolved } ∧
        rows.length = vs.length ∧
        (∀ r ∈ delta, r.tenant_id = p.tenant_id ∧
          r.source_system_id = p.source_system_id ∧
          r.entity_type = "ticket_void") ∧
        (∀ x ∈ vs, ∃ r ∈ delta, r.source_event_id = x.source_event_id) := by
  intro vs
  induction vs with
  | nil =>
    intro w
    exact ⟨[], [], by simp [voidsLoop], rfl, by simp, by simp⟩
  | cons x xs ih =>
    intro w
    have hstep : voidsLoop p tid now w (x :: xs) =
        voidsLoop p tid now
          (addMapRow
            { w with db := { w.db with
                ticket_voids := w.db.ticket_voids ++
                  [⟨w.db.ticket_voids.length + 1, p.tenant_id, tid,
                    x.amount, x.reason, now⟩] } }
            ⟨p.tenant_id, p.source_system_id, x.source_event_id,
              "ticket_void", w.db.ticket_voids.length + 1, now⟩)
          xs := rfl
    obtain ⟨delta, rows, heq, hlen, hmem, hcov⟩ := ih
      (addMapRow
        { w with db := { w.db with
            ticket_voids := w.db.ticket_voids ++
              [⟨w.db.ticket_voids.length + 1, p.tenant_id, tid,
                x.amount, x.reason, now⟩] } }
        ⟨p.tenant_id, p.source_system_id, x.source_event_id,
          "ticket_void", w.db.ticket_voids.length + 1, now⟩)
    refine ⟨⟨p.tenant_id, p.source_system_id, x.source_event_id,
        "ticket_void", w.db.ticket_voids.length + 1, now⟩ :: delta,
      ⟨w.db.ticket_voids.length + 1, p.tenant_id, tid, x.amount,
        x.reason, now⟩ :: rows, ?_, by simp [hlen], ?_, ?_⟩
    · rw [hstep, heq]
      simp [addMapRow]
    · intro r hr
      rcases List.mem_cons.mp hr with hr | hr
      · subst hr; exact ⟨rfl, rfl, rfl⟩
      · exact hmem r hr
    · intro y hy
      rcases List.mem_cons.mp hy with hy | hy
      · subst hy
        exact ⟨_, List.mem_cons_self _ _, rfl⟩
      · obtain ⟨r, hrd, hrs⟩ := hcov y hy
        exact ⟨r, List.mem_cons_of_mem _ hrd, hrs⟩

/-- The refunds loop only appends refund rows and their Dedup Map
entries. -/
theorem refundsLoop_facts (p : TicketBulkUpsert) (tid : Nat) (now : Int) :
    ∀ (rs : List TicketRefundInput) (w : TickWork),
      ∃ (delta : List IngestionEventMapRow) (rows : List TicketRefundRow),
        refundsLoop p tid now w rs =
          { db := { w.db with
                      ticket_refunds := w.db.ticket_refunds ++ rows
                      event_map := w.db.event_map ++ delta }
            newMaps := w.newMaps ++ delta
            warnings := w.warnings
            resolved := w.resolved } ∧
        rows.length = rs.length ∧
        (∀ r ∈ delta, r.tenant_id = p.tenant_id ∧
          r.source_system_id = p.source_system_id ∧
          r.entity_type = "ticket_refund") ∧
        (∀ x ∈ rs, ∃ r ∈ delta, r.source_event_id = x.source_event_id) := by
  intro rs
  induction rs with
  | nil =>
    intro w
    exact ⟨[], [], by simp [refundsLoop], rfl, by simp, by simp⟩
  | cons x xs ih =>
    intro w
    have hstep : refundsLoop p tid now w (x :: xs) =
        refundsLoop p tid now
          (addMapRow
            { w with db := { w.db with
                ticket_refunds := w.db.ticket_refunds ++
                  [⟨w.db.ticket_refunds.length + 1, p.tenant_id, tid,
                    x.amount, x.reason, x.refunded_at.getD now⟩] } }
            ⟨p.tenant_id, p.source_system_id, x.source_event_id,
              "ticket_refund", w.db.ticket_refunds.length + 1, now⟩)
          xs := rfl
    obtain ⟨delta, rows, heq, hlen, hmem, hcov⟩ := ih
      (addMapRow
        { w with db := { w.db with
            ticket_refunds := w.db.ticket_refunds ++
              [⟨w.db.ticket_refunds.length + 1, p.tenant_id, tid,
                x.amount, x.reason, x.refunded_at.getD now⟩] } }
        ⟨p.tenant_id, p.source_system_id, x.source_event_id,
          "ticket_refund", w.db.ticket_refunds.length + 1, now⟩)
    refine ⟨⟨p.tenant_id, p.source_system_id, x.source_event_id,
        "ticket_refund", w.db.ticket_refunds.length + 1, now⟩ :: delta,
      ⟨w.db.ticket_refunds.length + 1, p.tenant_id, tid, x.amount,
        x.reason, x.refunded_at.getD now⟩ :: rows, ?_, by simp [hlen],
      ?_, ?_⟩
    · rw [hstep, heq]
      simp [addMapRow]
    · intro r hr
      rcases List.mem_cons.mp hr with hr | hr
      · subst hr; exact ⟨rfl, rfl, rfl⟩
      · exact hmem r hr
    · intro y hy
      rcases List.mem_cons.mp hy with hy | hy
      · subst hy
        exact ⟨_, List.mem_cons_self _ _, rfl⟩
      · obtain ⟨r, hrd, hrs⟩ := hcov y hy
        exact ⟨r, List.mem_cons_of_mem _ hrd, hrs⟩

/-- The line-item loop only appends line-item rows, their Dedup Map
entries, item-mapping warnings and resolved entries. -/
theorem lineItemsLoop_facts (p : TicketBulkUpsert) (cid : Option Nat)
    (tid : Nat) (now : Int) :
    ∀ (ls : List TicketLineItemInput) (w : TickWork),
      ∃ (delta : List IngestionEventMapRow) (rows : List TicketLineItemRow)
        (extraW : List String) (newRes : List ResolvedLineItem),
        lineItemsLoop p cid tid now w ls =
          { db := { w.db with
                      ticket_line_items := w.db.ticket_line_items ++ rows
                      event_map := w.db.event_map ++ delta }
            newMaps := w.newMaps ++ delta
            warnings := w.warnings ++ extraW
            resolved := w.resolved ++ newRes } ∧
        rows.length = ls.length ∧
        (∀ r ∈ delta, r.tenant_id = p.tenant_id ∧
          r.source_system_id = p.source_system_id ∧
          r.entity_type = "ticket_line_item") ∧
        (∀ x ∈ ls, ∃ r ∈ delta, r.source_event_id = x.source_event_id) := by
  intro ls
  induction ls with
  | nil =>
    intro w
    exact ⟨[], [], [], [], by simp [lineItemsLoop], rfl, by simp, by simp⟩
  | cons x xs ih =>
    intro w
    have hstep : lineItemsLoop p cid tid now w (x :: xs) =
        lineItemsLoop p cid tid now
          { db := { w.db with
                      ticket_line_items := w.db.ticket_line_items ++
                        [⟨w.db.ticket_line_items.length + 1, p.tenant_id,
                          tid, (resolveLineItem w.db p x).1, x.item_name_raw,
                          x.qty, x.uom, x.unit_price, x.gross_amount,
                          x.discount_amount, x.tax_amount, x.net_amount,
                          cid⟩]
                      event_map := w.db.event_map ++
                        [⟨p.tenant_id, p.source_system_id,
                          x.source_event_id, "ticket_line_item",
                          w.db.ticket_line_items.length + 1, now⟩] }
            newMaps := w.newMaps ++
              [⟨p.tenant_id, p.source_system_id, x.source_event_id,
                "ticket_line_item", w.db.ticket_line_items.length + 1, now⟩]
            warnings := w.warnings ++ (resolveLineItem w.db p x).2.2
            resolved := w.resolved ++
              [⟨x.source_event_id, w.db.ticket_line_items.length + 1,
                (resolveLineItem w.db p x).1,
                (resolveLineItem w.db p x).2.1⟩] }
          xs := rfl
    obtain ⟨delta, rows, extraW, newRes, heq, hlen, hmem, hcov⟩ := ih
      { db := { w.db with
                  ticket_line_items := w.db.ticket_line_items ++
                    [⟨w.db.ticket_line_items.length + 1, p.tenant_id,
                      tid, (resolveLineItem w.db p x).1, x.item_name_raw,
                      x.qty, x.uom, x.unit_price, x.gross_amount,
                      x.discount_amount, x.tax_amount, x.net_amount, cid⟩]
                  event_map := w.db.event_map ++
                    [⟨p.tenant_id, p.source_system_id, x.source_event_id,
                      "ticket_line_item",
                      w.db.ticket_line_items.length + 1, now⟩] }
        newMaps := w.newMaps ++
          [⟨p.tenant_id, p.source_system_id, x.source_event_id,
            "ticket_line_item", w.db.ticket_line_items.length + 1, now⟩]
        warnings := w.warnings ++ (resolveLineItem w.db p x).2.2
        resolved := w.resolved ++
          [⟨x.source_event_id, w.db.ticket_line_items.length + 1,
            (resolveLineItem w.db p x).1, (resolveLineItem w.db p x).2.1⟩] }
    refine ⟨⟨p.tenant_id, p.source_system_id, x.source_event_id,
        "ticket_line_item", w.db.ticket_line_items.length + 1, now⟩ :: delta,
      ⟨w.db.ticket_line_items.length + 1, p.tenant_id, tid,
        (resolveLineItem w.db p x).1, x.item_name_raw, x.qty, x.uom,
        x.unit_price, x.gross_amount, x.discount_amount, x.tax_amount,
        x.net_amount, cid⟩ :: rows,
      (resolveLineItem w.db p x).2.2 ++ extraW,
      ⟨x.source_event_id, w.db.ticket_line_items.length + 1,
        (resolveLineItem w.db p x).1, (resolveLineItem w.db p x).2.1⟩ ::
        newRes, ?_, by simp [hlen], ?_, ?_⟩
    · rw [hstep, heq]
      simp
    · intro r hr
      rcases List.mem_cons.mp hr with hr | hr
      · subst hr; exact ⟨rfl, rfl, rfl⟩
      · exact hmem r hr
    · intro y hy
      rcases List.mem_cons.mp hy with hy | hy
      · subst hy
        exact ⟨_, List.mem_cons_self _ _, rfl⟩
      · obtain ⟨r, hrd, hrs⟩ := hcov y hy
        exact ⟨r, List.mem_cons_of_mem _ hrd, hrs⟩

/-- The create path of `processTicket` (ticket-level dedup miss): one new
`Ticket` row, one batch of child rows per child list, one Dedup Map entry
per child plus the ticket's own entry last, the `UPSERTED` result, and no
other change. -/
theorem processTicket_create (p : TicketBulkUpsert) (now : Int)
    (acc : BulkAcc) (t : TicketInput)
    (hmiss : acc.db.event_map.find?
      (mapKeyHit p.tenant_id p.source_system_id t.source_event_id
        "ticket") = none) :
    ∃ (delta : List IngestionEventMapRow) (lrows : List TicketLineItemRow)
      (prows : List TicketPaymentRow) (drows : List TicketDiscountRow)
      (vrows : List TicketVoidRow) (rrows : List TicketRefundRow)
      (extraW : List String) (newRes : List ResolvedLineItem),
      processTicket p now acc t =
        { db := { acc.db with
                    tickets := acc.db.tickets ++
                      [newTicketRow acc.db p t (resolveChannel acc.db p t).1]
                    ticket_line_items := acc.db.ticket_line_items ++ lrows
                    ticket_payments := acc.db.ticket_payments ++ prows
                    ticket_discounts := acc.db.ticket_discounts ++ drows
                    ticket_voids := acc.db.ticket_voids ++ vrows
                    ticket_refunds := acc.db.ticket_refunds ++ rrows
                    event_map := acc.db.event_map ++ delta ++
                      [⟨p.tenant_id, p.source_system_id, t.source_event_id,
                        "ticket", acc.db.tickets.length + 1, now⟩] }
          newMaps := acc.newMaps ++ delta ++
            [⟨p.tenant_id, p.source_system_id, t.source_event_id, "ticket",
              acc.db.tickets.length + 1, now⟩]
          accepted := acc.accepted + 1
          updated := acc.updated
          results := acc.results ++
            [{ source_event_id := t.source_event_id
               ticket_id := acc.db.tickets.length + 1
               upsert_status := "UPSERTED"
               resolved := some { business_day_id := p.business_day_id
                                  channel_id := (resolveChannel acc.db p t).1
                                  line_items := newRes }
               warnings := (resolveChannel acc.db p t).2 ++ extraW }] } ∧
      lrows.length = t.line_items.length ∧
      prows.length = t.payments.length ∧
      drows.length = t.discounts.length ∧
      vrows.length = t.voids.length ∧
      rrows.length = t.refunds.length ∧
      (∀ r ∈ delta, r.tenant_id = p.tenant_id ∧
        r.source_system_id = p.source_system_id ∧
        r.entity_type ≠ "ticket") ∧
      (∀ x ∈ t.line_items, ∃ r ∈ delta,
        r.source_event_id = x.source_event_id ∧
        r.entity_type = "ticket_line_item") := by
  obtain ⟨d1, r1, e1, R1, h1, hl1, hm1, hc1⟩ :=
    lineItemsLoop_facts p (resolveChannel acc.db p t).1
      (newTicketRow acc.db p t (resolveChannel acc.db p t).1).id now
      t.line_items
      { db := { acc.db with tickets := acc.db.tickets ++
          [newTicketRow acc.db p t (resolveChannel acc.db p t).1] }
        newMaps := acc.newMaps
        warnings := (resolveChannel acc.db p t).2
        resolved := [] }
  obtain ⟨d2, r2, h2, hl2, hm2, hc2⟩ :=
    paymentsLoop_facts p
      (newTicketRow acc.db p t (resolveChannel acc.db p t).1).id now
      t.payments
      (lineItemsLoop p (resolveChannel acc.db p t).1
        (newTicketRow acc.db p t (resolveChannel acc.db p t).1).id now
        { db := { acc.db with tickets := acc.db.tickets ++
            [newTicketRow acc.db p t (resolveChannel acc.db p t).1] }
          newMaps := acc.newMaps
          warnings := (resolveChannel acc.db p t).2
          resolved := [] }
        t.line_items)
  obtain ⟨d3, r3, h3, hl3, hm3, hc3⟩ :=
    discountsLoop_facts p
      (newTicketRow acc.db p t (resolveChannel acc.db p t).1).id now
      t.discounts
      (paymentsLoop p
        (newTicketRow acc.db p t (resolveChannel acc.db p t).1).id now
        (lineItemsLoop p (resolveChannel acc.db p t).1
          (newTicketRow acc.db p t (resolveChannel acc.db p t).1).id now
          { db := { acc.db with tickets := acc.db.tickets ++
              [newTicketRow acc.db p t (resolveChannel acc.db p t).1] }
            newMaps := acc.newMaps
            warnings := (resolveChannel acc.db p t).2
            resolved := [] }
          t.line_items)
        t.payments)
  obtain ⟨d4, r4, h4, hl4, hm4, hc4⟩ :=
    voidsLoop_facts p
      (newTicketRow acc.db p t (resolveChannel acc.db p t).1).id now
      t.voids
      (discountsLoop p
        (newTicketRow acc.db p t (resolveChannel acc.db p t).1).id now
        (paymentsLoop p
          (newTicketRow acc.db p t (resolveChannel acc.db p t).1).id now
          (lineItemsLoop p (resolveChannel acc.db p t).1
            (newTicketRow acc.db p t (resolveChannel acc.db p t).1).id now
            { db := { acc.db with tickets := acc.db.tickets ++
                [newTicketRow acc.db p t (resolveChannel acc.db p t).1] }
              newMaps := acc.newMaps
              warnings := (resolveChannel acc.db p t).2
              resolved := [] }
            t.line_items)
          t.payments)
        t.discounts)
  obtain ⟨d5, r5, h5, hl5, hm5, hc5⟩ :=
    refundsLoop_facts p
      (newTicketRow acc.db p t (resolveChannel acc.db p t).1).id now
      t.refunds
      (voidsLoop p
        (newTicketRow acc.db p t (resolveChannel acc.db p t).1).id now
        (discountsLoop p
          (newTicketRow acc.db p t (resolveChannel acc.db p t).1).id now
          (paymentsLoop p
            (newTicketRow acc.db p t (resolveChannel acc.db p t).1).id now
            (lineItemsLoop p (resolveChannel acc.db p t).1
              (newTicketRow acc.db p t (resolveChannel acc.db p t).1).id now
              { db := { acc.db with tickets := acc.db.tickets ++
                  [newTicketRow acc.db p t (resolveChannel acc.db p t).1] }
                newMaps := acc.newMaps
                warnings := (resolveChannel acc.db p t).2
                resolved := [] }
              t.line_items)
            t.payments)
          t.discounts)
        t.voids)
  refine ⟨d1 ++ d2 ++ d3 ++ d4 ++ d5, r1, r2, r3, r4, r5, e1, R1, ?_,
    hl1, hl2, hl3, hl4, hl5, ?_, ?_⟩
  · simp only [processTicket, hmiss]
    rw [h5, h4, h3, h2, h1]
    simp [addMapRow, newTicketRow, List.append_assoc]
  · intro r hr
    simp only [List.append_assoc, List.mem_append] at hr
    rcases hr with hr | hr | hr | hr | hr
    · obtain ⟨a, b, c⟩ := hm1 r hr
      exact ⟨a, b, by rw [c]; decide⟩
    · obtain ⟨a, b, c⟩ := hm2 r hr
      exact ⟨a, b, by rw [c]; decide⟩
    · obtain ⟨a, b, c⟩ := hm3 r hr
      exact ⟨a, b, by rw [c]; decide⟩
    · obtain ⟨a, b, c⟩ := hm4 r hr
      exact ⟨a, b, by rw [c]; decide⟩
    · obtain ⟨a, b, c⟩ := hm5 r hr
      exact ⟨a, b, by rw [c]; decide⟩
  · intro x hx
    obtain ⟨r, hrd, hrs⟩ := hc1 x hx
    obtain ⟨a, b, c⟩ := hm1 r hrd
    exact ⟨r, by simp [List.mem_append, hrd], hrs, c⟩

/-- The dedup-hit path of `processTicket`: report `UPDATED` with the
previously mapped id and write nothing. -/
theorem processTicket_updated (p : TicketBulkUpsert) (now : Int)
    (acc : BulkAcc) (t : TicketInput) (m : IngestionEventMapRow)
    (hhit : acc.db.event_map.find?
      (mapKeyHit p.tenant_id p.source_system_id t.source_event_id
        "ticket") = some m) :
    processTicket p now acc t =
      { acc with
          updated := acc.updated + 1
          results := acc.results ++
            [{ source_event_id := t.source_event_id
               ticket_id := m.entity_id
               upsert_status := "UPDATED"
               resolved := none
               warnings := [] }] } := by
  simp [processTicket, hhit]

/-- C1: a ticket whose (tenant, source system, source_event_id, "ticket")
4-tuple already has a Dedup Map entry is reported `UPDATED` with the
previously mapped ticket id and nothing is written; hence submitting the
same single-ticket payload twice yields `UPSERTED` with a positive ticket
id then `UPDATED` with the same id, with exactly one new `Ticket` row and
one set of child rows in the final state. -/
theorem c1_ticket_upsert_idempotent :
    (∀ (db : DB) (p : TicketBulkUpsert) (t : TicketInput)
        (m : IngestionEventMapRow) (now : Int),
      p.tickets = [t] →
      db.event_map.find?
        (mapKeyHit p.tenant_id p.source_system_id t.source_event_id
          "ticket") = some m →
      bulk_upsert_tickets db p now =
        .ok (db, { accepted := 0, updated := 1, rejected := 0,
                   results := [{ source_event_id := t.source_event_id
                                 ticket_id := m.entity_id
                                 upsert_status := "UPDATED"
                                 resolved := none
                                 warnings := [] }] })) ∧
    (∀ (db : DB) (p : TicketBulkUpsert) (t : TicketInput) (now now' : Int)
        (db₁ : DB) (r₁ : BulkTicketsResp),
      p.tickets = [t] →
      db.event_map.find?
        (mapKeyHit p.tenant_id p.source_system_id t.source_event_id
          "ticket") = none →
      bulk_upsert_tickets db p now = .ok (db₁, r₁) →
      r₁.accepted = 1 ∧ r₁.updated = 0 ∧
      (∃ res, r₁.results = [res] ∧ res.upsert_status = "UPSERTED" ∧
        res.ticket_id = db.tickets.length + 1 ∧ 0 < res.ticket_id) ∧
      bulk_upsert_tickets db₁ p now' =
        .ok (db₁, { accepted := 0, updated := 1, rejected := 0,
                    results := [{ source_event_id := t.source_event_id
                                  ticket_id := db.tickets.length + 1
                                  upsert_status := "UPDATED"
                                  resolved := none
                                  warnings := [] }] }) ∧
      db₁.tickets.length = db.tickets.length + 1 ∧
      db₁.ticket_line_items.length =
        db.ticket_line_items.length + t.line_items.length ∧
      db₁.ticket_payments.length =
        db.ticket_payments.length + t.payments.length ∧
      db₁.ticket_discounts.length =
        db.ticket_discounts.length + t.discounts.length ∧
      db₁.ticket_voids.length = db.ticket_voids.length + t.voids.length ∧
      db₁.ticket_refunds.length =
        db.ticket_refunds.length + t.refunds.length) := by
  constructor
  · intro db p t m now htk hhit
    unfold bulk_upsert_tickets
    rw [htk, List.foldl_cons, List.foldl_nil,
      processTicket_updated p now _ t m hhit]
    rfl
  · intro db p t now now' db₁ r₁ htk hmiss hcall
    obtain ⟨delta, lrows, prows, drows, vrows, rrows, extraW, newRes, heq,
      hl1, hl2, hl3, hl4, hl5, hmem, -⟩ :=
      processTicket_create p now
        { db := db, newMaps := [], accepted := 0, updated := 0,
          results := [] } t hmiss
    unfold bulk_upsert_tickets at hcall
    rw [htk, List.foldl_cons, List.foldl_nil, heq] at hcall
    dsimp only at hcall
    split at hcall
    case isFalse => cases hcall
    case isTrue hok =>
      simp only [Except.ok.injEq, Prod.mk.injEq] at hcall
      obtain ⟨hdb, hr⟩ := hcall
      subst hdb
      subst hr
      have hfind₁ : (db.event_map ++ delta ++
            ([⟨p.tenant_id, p.source_system_id, t.source_event_id, "ticket",
              db.tickets.length + 1, now⟩] :
              List IngestionEventMapRow)).find?
          (mapKeyHit p.tenant_id p.source_system_id t.source_event_id
            "ticket") =
          some (⟨p.tenant_id, p.source_system_id, t.source_event_id,
            "ticket", db.tickets.length + 1, now⟩ :
            IngestionEventMapRow) := by
        rw [List.find?_append, List.find?_append, hmiss]
        have hdelta : delta.find?
            (mapKeyHit p.tenant_id p.source_system_id t.source_event_id
              "ticket") = none := by
          rw [List.find?_eq_none]
          intro r hr
          obtain ⟨-, -, het⟩ := hmem r hr
          simp [mapKeyHit]
          intro _ _ _
          exact fun hcon => het hcon
        rw [hdelta]
        simp [mapKeyHit]
      refine ⟨rfl, rfl, ⟨_, rfl, rfl, rfl, Nat.succ_pos _⟩, ?_, by simp,
        by simp [hl1], by simp [hl2], by simp [hl3], by simp [hl4],
        by simp [hl5]⟩
      unfold bulk_upsert_tickets
      rw [htk, List.foldl_cons, List.foldl_nil,
        processTicket_updated p now' _ t _ hfind₁]
      rfl

/-- The concrete single-ticket payload used by the C1 witness: ticket
"T-1" with one line item "T-1-L1". -/
def ticketT1 : TicketInput :=
  { source_event_id := "T-1", opened_at := 0, status := "CLOSED",
    gross_amount := 2500, net_amount := 2400,
    line_items := [{ source_event_id := "T-1-L1", qty := 2,
                     gross_amount := 2400, net_amount := 2400 }] }

/-- The concrete bulk-upsert payload wrapping `ticketT1`. -/
def payloadT1 : TicketBulkUpsert :=
  { tenant_id := 1, location_id := 10, source_system_id := 1,
    business_day_id := some 900, tickets := [ticketT1] }

/-- C1 witness: the "T-1" ticket submitted twice against the empty
database: first call accepted, second call `UPDATED` with ticket id 1, one
ticket row and one line-item row in the final state. -/
theorem c1_ticket_upsert_idempotent_witness :
    ∃ (db₁ : DB) (r₁ : BulkTicketsResp),
      bulk_upsert_tickets emptyDB payloadT1 0 = .ok (db₁, r₁) ∧
      r₁.accepted = 1 ∧ r₁.updated = 0 ∧
      bulk_upsert_tickets db₁ payloadT1 5 =
        .ok (db₁, { accepted := 0, updated := 1, rejected := 0,
                    results := [{ source_event_id := "T-1", ticket_id := 1,
                                  upsert_status := "UPDATED",
                                  resolved := none, warnings := [] }] }) ∧
      db₁.tickets.length = 1 ∧ db₁.ticket_line_items.length = 1 := by
  obtain ⟨h1, h2, h3, h4, h5, h6, h7, h8, h9, h10⟩ :=
    c1_ticket_upsert_idempotent.2 emptyDB payloadT1 ticketT1 0 5 _ _
      (by rfl) (by rfl) rfl
  exact ⟨_, _, rfl, h1, h2, h4, h5, h6⟩

/-- C9: a ticket carrying a channel block whose (tenant, provider,
source_channel_code) has no `ChannelMapping` row is still created — with
`channel_id` null, the warning `channel_not_mapped` in its result, and the
ticket counted as accepted; the mapping miss never rejects the ticket. -/
theorem c9_channel_miss_never_rejects (db : DB) (p : TicketBulkUpsert)
    (t : TicketInput) (ch : TicketChannelInput) (now : Int) (db₁ : DB)
    (r₁ : BulkTicketsResp)
    (htk : p.tickets = [t])
    (hch : t.channel = some ch)
    (hmiss : db.event_map.find?
      (mapKeyHit p.tenant_id p.source_system_id t.source_event_id
        "ticket") = none)
    (hcm : db.channel_mappings.find? (fun c =>
      c.tenant_id == p.tenant_id && c.provider == ch.provider &&
        c.source_channel_code == ch.source_channel_code) = none)
    (hcall : bulk_upsert_tickets db p now = .ok (db₁, r₁)) :
    r₁.accepted = 1 ∧ r₁.rejected = 0 ∧
    (∃ res, r₁.results = [res] ∧ res.upsert_status = "UPSERTED" ∧
      "channel_not_mapped" ∈ res.warnings) ∧
    ∃ tk, db₁.tickets = db.tickets ++ [tk] ∧ tk.channel_id = none := by
  have hrc : resolveChannel db p t = (none, ["channel_not_mapped"]) := by
    simp [resolveChannel, hch, hcm]
  obtain ⟨delta, lrows, prows, drows, vrows, rrows, extraW, newRes, heq,
    -, -, -, -, -, -, -⟩ :=
    processTicket_create p now
      { db := db, newMaps := [], accepted := 0, updated := 0,
        results := [] } t hmiss
  unfold bulk_upsert_tickets at hcall
  rw [htk, List.foldl_cons, List.foldl_nil, heq] at hcall
  dsimp only at hcall
  split at hcall
  case isFalse => cases hcall
  case isTrue hok =>
    simp only [Except.ok.injEq, Prod.mk.injEq] at hcall
    obtain ⟨hdb, hr⟩ := hcall
    subst hdb
    subst hr
    refine ⟨rfl, rfl, ⟨_, rfl, rfl, ?_⟩, ⟨_, rfl, ?_⟩⟩
    · rw [hrc]
      simp
    · simp [newTicketRow, hrc]

/-- C9 witness: a `DINEIN` channel block with no mapping against the empty
database still creates the ticket. -/
theorem c9_channel_miss_never_rejects_witness :
    ∃ (db₁ : DB) (r₁ : BulkTicketsResp),
      bulk_upsert_tickets emptyDB
        { tenant_id := 1, location_id := 10, source_system_id := 1,
          tickets := [{ source_event_id := "T-9", opened_at := 0,
                        status := "OPEN", gross_amount := 100,
                        net_amount := 100,
                        channel := some { provider := some "pos_square",
                                          source_channel_code :=
                                            "DINEIN" } }] }
        0 = .ok (db₁, r₁) ∧
      r₁.accepted = 1 ∧ r₁.rejected = 0 ∧
      (∃ res, r₁.results = [res] ∧ res.upsert_status = "UPSERTED" ∧
        "channel_not_mapped" ∈ res.warnings) ∧
      ∃ tk, db₁.tickets = emptyDB.tickets ++ [tk] ∧
        tk.channel_id = none := by
  obtain ⟨h1, h2, h3, h4⟩ := c9_channel_miss_never_rejects emptyDB
    { tenant_id := 1, location_id := 10, source_system_id := 1,
      tickets := [{ source_event_id := "T-9", opened_at := 0,
                    status := "OPEN", gross_amount := 100,
                    net_amount := 100,
                    channel := some { provider := some "pos_square",
                                      source_channel_code := "DINEIN" } }] }
    { source_event_id := "T-9", opened_at := 0, status := "OPEN",
      gross_amount := 100, net_amount := 100,
      channel := some { provider := some "pos_square",
                        source_channel_code := "DINEIN" } }
    { provider := some "pos_square", source_channel_code := "DINEIN" }
    0 _ _ (by rfl) (by rfl) (by rfl) (by rfl) rfl
  exact ⟨_, _, rfl, h1, h2, h3, h4⟩

/-- Flushing a pending row that collides with a row already in the table
(or with an earlier pending row) violates the unique index. -/
theorem insertsOk_false_of_conflict :
    ∀ (new old : List IngestionEventMapRow) (r : IngestionEventMapRow),
      r ∈ new → (∃ s ∈ old, mapKeyConflict r s = true) →
      insertsOk old new = false := by
  intro new
  induction new with
  | nil => intro old r hr; cases hr
  | cons a as ih =>
    intro old r hr hex
    obtain ⟨s, hs, hc⟩ := hex
    rcases List.mem_cons.mp hr with hra | hra
    · subst hra
      have hall : old.all (fun x => ! mapKeyConflict r x) = false := by
        rw [Bool.eq_false_iff]
        intro hall
        have := List.all_eq_true.mp hall s hs
        simp [hc] at this
      simp [insertsOk, hall]
    · cases hhead : old.all fun x => ! mapKeyConflict a x
      · simp [insertsOk, hhead]
      · simp only [insertsOk, hhead, Bool.true_and]
        exact ih (old ++ [a]) r hra ⟨s, by simp [hs], hc⟩

/-- C4 (amended): line items are not independently deduplicated; a new
ticket carrying a line item whose 4-tuple already has an
`IngestionEventMap` entry makes the whole batch fail with an integrity
error at flush/commit time, so nothing (neither a second `TicketLineItem`
row nor any other row of the batch) is persisted. -/
theorem c4_line_item_dup_aborts_batch (db : DB) (p : TicketBulkUpsert)
    (t : TicketInput) (li : TicketLineItemInput) (now : Int)
    (htk : p.tickets = [t])
    (hli : li ∈ t.line_items)
    (hmiss : db.event_map.find?
      (mapKeyHit p.tenant_id p.source_system_id t.source_event_id
        "ticket") = none)
    (hdup : ∃ s ∈ db.event_map,
      mapKeyHit p.tenant_id p.source_system_id li.source_event_id
        "ticket_line_item" s = true) :
    bulk_upsert_tickets db p now = .error .integrityError := by
  obtain ⟨delta, lrows, prows, drows, vrows, rrows, extraW, newRes, heq,
    -, -, -, -, -, hmem, hcov⟩ :=
    processTicket_create p now
      { db := db, newMaps := [], accepted := 0, updated := 0,
        results := [] } t hmiss
  unfold bulk_upsert_tickets
  rw [htk, List.foldl_cons, List.foldl_nil, heq]
  dsimp only
  obtain ⟨r, hrd, hrs, hret⟩ := hcov li hli
  obtain ⟨ha, hb, -⟩ := hmem r hrd
  obtain ⟨s, hsm, hsk⟩ := hdup
  simp only [mapKeyHit, Bool.and_eq_true, beq_iff_eq] at hsk
  obtain ⟨⟨⟨hs1, hs2⟩, hs3⟩, hs4⟩ := hsk
  have hconf : mapKeyConflict r s = true := by
    simp [mapKeyConflict, ha, hb, hrs, hret, hs1, hs2, hs3, hs4]
  have hfalse : insertsOk db.event_map
      ([] ++ delta ++
        ([⟨p.tenant_id, p.source_system_id, t.source_event_id, "ticket",
          db.tickets.length + 1, now⟩] : List IngestionEventMapRow)) =
      false :=
    insertsOk_false_of_conflict _ _ r (by simp [hrd]) ⟨s, hsm, hconf⟩
  simp only [List.nil_append] at hfalse ⊢
  rw [hfalse]
  rfl

/-- Concrete state for the C4 counterexample: the Dedup Map already holds
a `ticket_line_item` entry for source_event_id "L-1". -/
def dbC4 : DB :=
  { emptyDB with event_map := [⟨1, 1, "L-1", "ticket_line_item", 77, 0⟩] }

/-- Concrete payload for the C4 counterexample: a fresh ticket "T-4"
whose single line item reuses source_event_id "L-1". -/
def payloadC4 : TicketBulkUpsert :=
  { tenant_id := 1, location_id := 10, source_system_id := 1,
    tickets := [{ source_event_id := "T-4", opened_at := 0,
                  status := "CLOSED", gross_amount := 100,
                  net_amount := 100,
                  line_items := [{ source_event_id := "L-1", qty := 1,
                                   gross_amount := 100,
                                   net_amount := 100 }] }] }

/-- C4 counterexample: at this concrete input the batch does not succeed —
it raises an integrity error — refuting the claim that a duplicate
line-item `source_event_id` is skipped while the batch still succeeds. -/
theorem c4_counterexample_batch_fails :
    bulk_upsert_tickets dbC4 payloadC4 0 = .error .integrityError ∧
    ¬ ∃ x, bulk_upsert_tickets dbC4 payloadC4 0 = .ok x := by
  constructor
  · rfl
  · rintro ⟨x, hx⟩
    rw [show bulk_upsert_tickets dbC4 payloadC4 0 =
      .error .integrityError from rfl] at hx
    cases hx

/-- C4 witness: the amended claim instantiated at the concrete input of
the counterexample. -/
theorem c4_line_item_dup_aborts_batch_witness :
    bulk_upsert_tickets dbC4 payloadC4 0 = .error .integrityError :=
  c4_line_item_dup_aborts_batch dbC4 payloadC4
    { source_event_id := "T-4", opened_at := 0, status := "CLOSED",
      gross_amount := 100, net_amount := 100,
      line_items := [{ source_event_id := "L-1", qty := 1,
                       gross_amount := 100, net_amount := 100 }] }
    { source_event_id := "L-1", qty := 1, gross_amount := 100,
      net_amount := 100 }
    0 (by rfl) (by simp) (by rfl)
    ⟨⟨1, 1, "L-1", "ticket_line_item", 77, 0⟩, by simp [dbC4, emptyDB],
      by rfl⟩

/-- C10: a labor punch that is no dedup hit, carries no `employee_id`, and
whose `employee_external_key` resolves to no employee of the tenant and
location is silently rejected: the loop body only increments `rejected`,
creating no `LaborPunch` row, no Dedup Map entry, no result entry and no
warning; concretely a one-punch batch with an unknown external key returns
`rejected = 1` with an empty result list and leaves the state unchanged. -/
theorem c10_unresolved_punch_silently_rejected :
    (∀ (p : LaborPunchBulkUpsert) (acc : PunchAcc)
        (punch : LaborPunchInput),
      acc.db.event_map.find?
        (mapKeyHit p.tenant_id p.source_system_id punch.source_event_id
          "labor_punch") = none →
      punch.employee_id = none →
      (optStrTruthy punch.employee_external_key = false ∨
        acc.db.employees.find? (fun e =>
          e.tenant_id == p.tenant_id &&
            e.location_id == some p.location_id &&
            e.external_key == punch.employee_external_key) = none) →
      punchStep p acc punch =
        .ok { acc with rejected := acc.rejected + 1 }) ∧
    bulk_upsert_labor_punches emptyDB
        { tenant_id := 1, location_id := 10, source_system_id := 1,
          punches := [{ source_event_id := "P-1",
                        employee_external_key := some "POS-EMP-12",
                        clock_in := 0 }] } =
      .ok (emptyDB, 0, 0, 1, []) := by
  constructor
  · intro p acc punch hmiss hemp hres
    simp only [punchStep, hmiss]
    rcases hres with hk | hf
    · simp [hemp, hk, optNatTruthy]
    · by_cases hk : optStrTruthy punch.employee_external_key = true
      · simp [hemp, hk, hf, optNatTruthy]
      · simp [hemp, Bool.eq_false_iff.mpr hk, optNatTruthy]
  · rfl

/-- C10 witness: the silent-rejection fact instantiated at the concrete
unknown-key punch against the empty state. -/
theorem c10_unresolved_punch_silently_rejected_witness :
    punchStep
      { tenant_id := 1, location_id := 10, source_system_id := 1,
        punches := [] }
      { db := emptyDB, newMaps := [], accepted := 0, updated := 0,
        rejected := 0, results := [] }
      { source_event_id := "P-1",
        employee_external_key := some "POS-EMP-12", clock_in := 0 } =
      .ok { db := emptyDB, newMaps := [], accepted := 0, updated := 0,
            rejected := 1, results := [] } :=
  c10_unresolved_punch_silently_rejected.1
    { tenant_id := 1, location_id := 10, source_system_id := 1,
      punches := [] }
    { db := emptyDB, newMaps := [], accepted := 0, updated := 0,
      rejected := 0, results := [] }
    { source_event_id := "P-1", employee_external_key := some "POS-EMP-12",
      clock_in := 0 }
    (by rfl) (by rfl) (Or.inr (by rfl))

end DummyBackend
